import Mathlib

/-!
# Verification of the bi_parsers extraction engine

A shallow embedding of the Cognos BI-export parser (`src/core/models.py`,
`src/cognos/parser.py`, `src/cognos/extractors/data_module_extractor.py`,
`src/cognos/extractors/dashboard_extractor.py`) together with proofs about
the behaviours stated in the specification.

Modelling conventions:
* Python dict/JSON values are modelled by the inductive `Json`; property
  bags are ordered association lists `List (String × Json)`.
* The out-of-scope collaborators (the JSON text parser `json.loads`, the
  base64 decoder and the gzip inflater, the static visualization-id table)
  are passed as explicit function parameters, exactly at their interface.
* Machine state that Python mutates in place (`ParseResult`) is threaded
  explicitly.
-/

namespace BiParsers

/-- JSON-like value, modelling both parsed JSON documents and the untyped
property bags of `ExtractedObject` / `Relationship` (`Dict[str, Any]`). -/
inductive Json where
  | null : Json
  | bool (b : Bool) : Json
  | num (n : Int) : Json
  | str (s : String) : Json
  | arr (xs : List Json) : Json
  | obj (fields : List (String × Json)) : Json
deriving Repr, Inhabited

/-- Python `x == "lit"` for a JSON value against a string literal:
true exactly when the value is that string (structural, so it evaluates
by kernel reduction). -/
def Json.isStr : Json → String → Bool
  | .str s, t => s = t
  | _, _ => false

/-- `d.get(key)` on a JSON object: first binding wins (Python dicts hold
one binding per key; our inputs are built that way). Non-objects give `none`. -/
def Json.get : Json → String → Option Json
  | .obj fields, k => fields.lookup k
  | _, _ => none

/-- `d.get(key, default)`. -/
def Json.getD (j : Json) (k : String) (d : Json) : Json :=
  (j.get k).getD d

/-- Python truthiness of a JSON value (`bool(x)`): `None`, `False`, `0`,
`""`, `[]` and `{}` are falsy. -/
def Json.truthy : Json → Bool
  | .null => false
  | .bool b => b
  | .num n => n != 0
  | .str s => !s.isEmpty
  | .arr xs => !xs.isEmpty
  | .obj fs => !fs.isEmpty

/-- `a or b` in Python over JSON values: `a` if truthy, else `b`. -/
def Json.orElse (a b : Json) : Json := if a.truthy then a else b

/-- `isinstance(x, list)` check returning the elements. -/
def Json.asList? : Json → Option (List Json)
  | .arr xs => some xs
  | _ => none

/-- `isinstance(x, dict)` check returning the fields. -/
def Json.asObj? : Json → Option (List (String × Json))
  | .obj fs => some fs
  | _ => none

/-- String content of a JSON value if it is a string. -/
def Json.asStr? : Json → Option String
  | .str s => some s
  | _ => none

/-! ## Core data model (`src/core/models.py`) -/

/-- `ObjectType` enumeration (`models.py` lines 12-37). -/
inductive ObjectType where
  | folder | report | dashboard | data_module | data_source
  | data_source_connection | package | query | visualization
  | table | column | dimension | measure | filter | calculated_field
  | parameter | prompt | hierarchy | sort | page | tab | output | unknown
deriving Repr, DecidableEq, BEq, Inhabited

/-- The string value of each `ObjectType` member (pydantic `use_enum_values`). -/
def ObjectType.value : ObjectType → String
  | .folder => "folder"
  | .report => "report"
  | .dashboard => "dashboard"
  | .data_module => "data_module"
  | .data_source => "data_source"
  | .data_source_connection => "data_source_connection"
  | .package => "package"
  | .query => "query"
  | .visualization => "visualization"
  | .table => "table"
  | .column => "column"
  | .dimension => "dimension"
  | .measure => "measure"
  | .filter => "filter"
  | .calculated_field => "calculated_field"
  | .parameter => "parameter"
  | .prompt => "prompt"
  | .hierarchy => "hierarchy"
  | .sort => "sort"
  | .page => "page"
  | .tab => "tab"
  | .output => "output"
  | .unknown => "unknown"

/-- `RelationshipType` enumeration (`models.py` lines 40-53). -/
inductive RelationshipType where
  | parent_child | uses | references | contains | depends_on
  | has_column | aggregates | filters_by | uses_parameter
  | connects_to | joins_to
deriving Repr, DecidableEq, BEq, Inhabited

/-- The string value of each `RelationshipType` member. -/
def RelationshipType.value : RelationshipType → String
  | .parent_child => "parent_child"
  | .uses => "uses"
  | .references => "references"
  | .contains => "contains"
  | .depends_on => "depends_on"
  | .has_column => "has_column"
  | .aggregates => "aggregates"
  | .filters_by => "filters_by"
  | .uses_parameter => "uses_parameter"
  | .connects_to => "connects_to"
  | .joins_to => "joins_to"

/-- `ParseErrorLevel` enumeration (`models.py` lines 56-60). -/
inductive ParseErrorLevel where
  | warning | error | critical
deriving Repr, DecidableEq, BEq, Inhabited

/-- The string value of each `ParseErrorLevel` member. -/
def ParseErrorLevel.value : ParseErrorLevel → String
  | .warning => "warning"
  | .error => "error"
  | .critical => "critical"

/-- `ExtractedObject` (`models.py` lines 63-86). Timestamps are kept as the
raw ISO strings (our claims never compare parsed datetimes); the unused
`path` field is carried for completeness. -/
structure ExtractedObject where
  object_id : String
  object_type : ObjectType
  name : String
  parent_id : Option String := none
  path : Option String := none
  properties : List (String × Json) := []
  created_at : Option String := none
  modified_at : Option String := none
  owner : Option String := none
  source_file : Option String := none
  bi_tool : String
deriving Repr, Inhabited

/-- `Relationship` (`models.py` lines 89-100). -/
structure Relationship where
  source_id : String
  target_id : String
  relationship_type : RelationshipType
  properties : List (String × Json) := []
deriving Repr, Inhabited

/-- `ParseError` (`models.py` lines 103-120): severity, message and the
provenance fields our code paths set (`file_name`, `object_id`); the
`line_number`/`xpath`/`details`/`timestamp` fields are never set by the
embedded code paths and are omitted. -/
structure ParseError where
  level : ParseErrorLevel
  message : String
  file_name : Option String := none
  object_id : Option String := none
deriving Repr, Inhabited

/-- A value stored in `ParseResult.stats` (`Dict[str, Any]`): the parser
stores strings (version metadata), counters, count maps, and the
storeID → object-id index. -/
inductive StatVal where
  | str (s : String) : StatVal
  | nat (n : Nat) : StatVal
  | countMap (m : List (String × Nat)) : StatVal
  | idMap (m : List (String × String)) : StatVal
deriving Repr, Inhabited

/-- `ParseResult` (`models.py` lines 123-134): the mutable accumulator with
its private `_seen_object_ids` dedup set (modelled as a list used only
through membership). -/
structure ParseResult where
  objects : List ExtractedObject := []
  relationships : List Relationship := []
  errors : List ParseError := []
  stats : List (String × StatVal) := []
  seen_object_ids : List String := []
deriving Repr, Inhabited

/-- `ParseResult.has_object_id` (`models.py` lines 136-138). -/
def ParseResult.hasObjectId (r : ParseResult) (objId : String) : Bool :=
  r.seen_object_ids.contains objId

/-- `ParseResult.add_object` (`models.py` lines 140-145): skip when the
`object_id` was already seen (first write wins), otherwise record the id
and append the object. -/
def ParseResult.addObject (r : ParseResult) (obj : ExtractedObject) : ParseResult :=
  if r.seen_object_ids.contains obj.object_id then r
  else { r with
         seen_object_ids := obj.object_id :: r.seen_object_ids,
         objects := r.objects ++ [obj] }

/-- `ParseResult.add_relationship` (`models.py` lines 147-149). -/
def ParseResult.addRelationship (r : ParseResult) (rel : Relationship) : ParseResult :=
  { r with relationships := r.relationships ++ [rel] }

/-- `ParseResult.add_error` (`models.py` lines 151-153). -/
def ParseResult.addError (r : ParseResult) (e : ParseError) : ParseResult :=
  { r with errors := r.errors ++ [e] }

/-- Incrementing one key of an insertion-ordered count dict
(`counts[k] = counts.get(k, 0) + 1` on a Python dict). -/
def bumpCount : List (String × Nat) → String → List (String × Nat)
  | [], k => [(k, 1)]
  | (k0, n) :: rest, k =>
    if k0 = k then (k0, n + 1) :: rest else (k0, n) :: bumpCount rest k

/-- `ParseResult.calculate_stats` (`models.py` lines 155-183): counts by
object type, relationship type and error level, then *replaces* `stats`
with exactly the six summary keys. -/
def ParseResult.calculateStats (r : ParseResult) : ParseResult :=
  let typeCounts := r.objects.foldl (fun m o => bumpCount m o.object_type.value) []
  let relTypeCounts :=
    r.relationships.foldl (fun m rel => bumpCount m rel.relationship_type.value) []
  let errorCounts := r.errors.foldl (fun m e => bumpCount m e.level.value) []
  { r with stats :=
      [ ("total_objects", .nat r.objects.length),
        ("total_relationships", .nat r.relationships.length),
        ("total_errors", .nat r.errors.length),
        ("objects_by_type", .countMap typeCounts),
        ("relationships_by_type", .countMap relTypeCounts),
        ("errors_by_level", .countMap errorCounts) ] }

end BiParsers

namespace BiParsers

/-! ## Claim C1: first-write-wins object deduplication -/

/-- The seen-id set agrees with the ids of the stored objects; holds for a
fresh `ParseResult` and is preserved by `addObject` (the only operation
that touches either field). -/
def ParseResult.SeenConsistent (r : ParseResult) : Prop :=
  ∀ i : String, i ∈ r.seen_object_ids ↔ i ∈ r.objects.map ExtractedObject.object_id

theorem seenConsistent_empty : ParseResult.SeenConsistent {} := by
  intro i; simp [ParseResult.SeenConsistent]

theorem seenConsistent_addObject (r : ParseResult) (o : ExtractedObject)
    (h : r.SeenConsistent) : (r.addObject o).SeenConsistent := by
  intro i
  unfold ParseResult.addObject
  by_cases hc : r.seen_object_ids.contains o.object_id
  · simp only [hc, if_pos]; exact h i
  · simp only [hc, Bool.false_eq_true, if_neg, not_false_iff]
    simp only [List.mem_cons, List.map_append, List.map_cons, List.map_nil,
      List.mem_append]
    constructor
    · rintro (rfl | hi)
      · right; simp
      · left; exact (h i).mp hi
    · rintro (hi | hi)
      · right; exact (h i).mpr hi
      · left; simpa using hi

/-- `add_object` on an already-seen id is the identity. -/
theorem addObject_of_seen (r : ParseResult) (o : ExtractedObject)
    (h : r.seen_object_ids.contains o.object_id = true) : r.addObject o = r := by
  have h2 : o.object_id ∈ r.seen_object_ids := by simpa using h
  simp [ParseResult.addObject, h2]

/-- `add_object` on a fresh id records the id and appends the object. -/
theorem addObject_of_fresh (r : ParseResult) (o : ExtractedObject)
    (h : r.seen_object_ids.contains o.object_id = false) :
    r.addObject o =
      { r with seen_object_ids := o.object_id :: r.seen_object_ids,
               objects := r.objects ++ [o] } := by
  have h2 : o.object_id ∉ r.seen_object_ids := by simpa using h
  simp [ParseResult.addObject, h2]

/-- C1 — Adding two objects with the same `object_id` via `add_object`
leaves exactly one object with that id in the Result, namely the first one
added (first write wins, properties included); the second call is a no-op
that returns the state unchanged. -/
theorem addObject_first_write_wins
    (r : ParseResult) (o1 o2 : ExtractedObject)
    (hwf : r.SeenConsistent)
    (hfresh : ¬ o1.object_id ∈ r.seen_object_ids)
    (hid : o2.object_id = o1.object_id) :
    (((r.addObject o1).addObject o2).objects.filter
        (fun o => o.object_id = o1.object_id)) = [o1]
    ∧ (r.addObject o1).addObject o2 = r.addObject o1 := by
  have hc1 : r.seen_object_ids.contains o1.object_id = false := by
    simpa using hfresh
  have hstep := addObject_of_fresh r o1 hc1
  have hnoop : (r.addObject o1).addObject o2 = r.addObject o1 := by
    apply addObject_of_seen
    rw [hstep]
    simp [hid]
  refine ⟨?_, hnoop⟩
  rw [hnoop, hstep]
  simp only [List.filter_append]
  have hnone : r.objects.filter (fun o => o.object_id = o1.object_id) = [] := by
    rw [List.filter_eq_nil_iff]
    intro o ho hmem
    apply hfresh
    exact (hwf o1.object_id).mpr (by
      simp only [List.mem_map]
      exact ⟨o, ho, by simpa using hmem⟩)
  rw [hnone]
  simp

/-- Witness for C1 at a concrete state: an empty Result plus two colliding
objects with different properties. -/
theorem addObject_first_write_wins_witness :
    letI r : ParseResult := {}
    letI o1 : ExtractedObject :=
      { object_id := "id1", object_type := .report, name := "first",
        properties := [("marker", .str "one")], bi_tool := "cognos" }
    letI o2 : ExtractedObject :=
      { object_id := "id1", object_type := .report, name := "second",
        properties := [("marker", .str "two")], bi_tool := "cognos" }
    (((r.addObject o1).addObject o2).objects.filter
        (fun o => o.object_id = o1.object_id)) = [o1]
    ∧ (r.addObject o1).addObject o2 = r.addObject o1 :=
  addObject_first_write_wins _ _ _ seenConsistent_empty (by simp) rfl

/-! ## Claim C10: `calculate_stats` frame effect -/

/-- C10 — `calculate_stats` leaves `objects`, `relationships` and `errors`
unchanged and replaces the whole `stats` map with exactly the six summary
keys; any key written before the call (for example `cognos_version` or
`data_sources_by_store_id`) is absent afterwards. -/
theorem calculateStats_replaces_stats (r : ParseResult) :
    (r.calculateStats.objects = r.objects
      ∧ r.calculateStats.relationships = r.relationships
      ∧ r.calculateStats.errors = r.errors)
    ∧ r.calculateStats.stats.map Prod.fst =
        ["total_objects", "total_relationships", "total_errors",
         "objects_by_type", "relationships_by_type", "errors_by_level"]
    ∧ (∀ k : String,
        k ∉ ["total_objects", "total_relationships", "total_errors",
             "objects_by_type", "relationships_by_type", "errors_by_level"] →
        r.calculateStats.stats.lookup k = none) := by
  refine ⟨⟨rfl, rfl, rfl⟩, rfl, ?_⟩
  intro k hk
  simp only [List.mem_cons, List.not_mem_nil, or_false, not_or] at hk
  obtain ⟨h1, h2, h3, h4, h5, h6⟩ := hk
  simp [ParseResult.calculateStats, List.lookup,
    beq_eq_false_iff_ne.mpr h1, beq_eq_false_iff_ne.mpr h2,
    beq_eq_false_iff_ne.mpr h3, beq_eq_false_iff_ne.mpr h4,
    beq_eq_false_iff_ne.mpr h5, beq_eq_false_iff_ne.mpr h6]

/-- Witness for C10: a Result whose stats hold the manifest metadata and
the storeID index loses both keys after `calculate_stats`. -/
theorem calculateStats_replaces_stats_witness :
    letI r : ParseResult :=
      { stats := [("cognos_version", .str "11.2.4"),
                  ("data_sources_by_store_id", .idMap [("s1", "obj1")])] }
    r.calculateStats.stats.lookup "cognos_version" = none
    ∧ r.calculateStats.stats.lookup "data_sources_by_store_id" = none := by
  exact ⟨(calculateStats_replaces_stats _).2.2 "cognos_version" (by decide),
         (calculateStats_replaces_stats _).2.2 "data_sources_by_store_id" (by decide)⟩

/-! ## Calculated-field classifier
(`data_module_extractor.py` lines 63-86)

`_CALC_EXPRESSION_REGEX` is the alternation of ten patterns searched
case-insensitively anywhere in the stripped expression.  We embed the
regex search directly as a character scanner: `searchFrom patt` tries
`patt` at every position, threading whether the previous character was a
word character (for the `\b` boundaries).  Inputs are ASCII SQL-like
expressions, so `\w` is `[A-Za-z0-9_]` and `\s` is ASCII whitespace. -/

/-- `\w` on the ASCII expressions the classifier sees. -/
def isWordChar (c : Char) : Bool := c.isAlphanum || c = '_'

/-- Case-insensitive literal match; returns the remaining characters.
The pattern is given in lowercase. -/
def matchCI : List Char → List Char → Option (List Char)
  | rest, [] => some rest
  | [], _ :: _ => none
  | c :: cs, p :: ps => if c.toLower = p then matchCI cs ps else none

/-- Drop leading whitespace (`\s*`). -/
def skipWs : List Char → List Char
  | [] => []
  | c :: cs => if c.isWhitespace then skipWs cs else c :: cs

/-- `CASE\s+WHEN` at the current position (no word boundary in the
source pattern). -/
def caseWhenAt (cs : List Char) : Bool :=
  match matchCI cs ("case".toList) with
  | none => false
  | some rest =>
    match rest with
    | [] => false
    | c :: _ =>
      c.isWhitespace &&
        (matchCI (skipWs rest) ("when".toList)).isSome

/-- `\bNAME\s*\(` at the current position, given that the preceding
character was (`prevW`) a word character. -/
def fnCallAt (prevW : Bool) (cs : List Char) (name : List Char) : Bool :=
  !prevW &&
    (match matchCI cs name with
     | none => false
     | some rest =>
       match skipWs rest with
       | '(' :: _ => true
       | _ => false)

/-- `\bLITERAL` at the current position. -/
def litAt (prevW : Bool) (cs : List Char) (lit : List Char) : Bool :=
  !prevW && (matchCI cs lit).isSome

/-- `[\+\-\*\/]` at the current position: an arithmetic operator. -/
def arithAt (cs : List Char) : Bool :=
  match cs with
  | c :: _ => c = '+' || c = '-' || c = '*' || c = '/'
  | [] => false

/-- Run a positional matcher at every position of the character list
(`re.search`), tracking whether the previous character is a word
character. -/
def searchFrom (patt : Bool → List Char → Bool) : Bool → List Char → Bool
  | _, [] => false
  | prevW, c :: cs => patt prevW (c :: cs) || searchFrom patt (isWordChar c) cs

/-- All ten alternatives of `CALC_EXPRESSION_PATTERNS` tried at one
position (lines 67-78). -/
def calcPattAt (prevW : Bool) (cs : List Char) : Bool :=
  caseWhenAt cs
  || fnCallAt prevW cs ("if".toList)
  || fnCallAt prevW cs ("abs".toList)
  || fnCallAt prevW cs ("minimum".toList)
  || fnCallAt prevW cs ("maximum".toList)
  || fnCallAt prevW cs ("cast".toList)
  || litAt prevW cs ("current_date".toList)
  || litAt prevW cs ("current_timestamp".toList)
  || fnCallAt prevW cs ("coalesce".toList)
  || arithAt cs

/-- `_CALC_EXPRESSION_REGEX.search(s)` as a Bool. -/
def calcRegexSearch (s : String) : Bool := searchFrom calcPattAt false s.toList

/-- `str.strip()` (ASCII whitespace at both ends), written over the
character list so that it evaluates by reduction. -/
def pyStrip (s : String) : String :=
  String.mk
    (((s.toList.dropWhile Char.isWhitespace).reverse.dropWhile
        Char.isWhitespace).reverse)

/-- `str.lower()` over the character list. -/
def pyLower (s : String) : String := String.mk (s.toList.map Char.toLower)

/-- `_expression_is_calculated_field` (lines 82-86): `None`/empty
expressions are not calculated fields, otherwise search the stripped
expression for any calculation pattern. -/
def expressionIsCalculatedField : Option String → Bool
  | none => false
  | some e => if e = "" then false else calcRegexSearch (pyStrip e)

/-- Searching with the disjunction of two matchers is the disjunction of
the two searches. -/
theorem searchFrom_or (p q : Bool → List Char → Bool) (b : Bool) (l : List Char) :
    searchFrom (fun w cs => p w cs || q w cs) b l
      = (searchFrom p b l || searchFrom q b l) := by
  induction l generalizing b with
  | nil => rfl
  | cons c cs ih =>
    simp only [searchFrom, ih (isWordChar c)]
    cases p b (c :: cs) <;> cases q b (c :: cs) <;>
      cases searchFrom p (isWordChar c) cs <;>
      cases searchFrom q (isWordChar c) cs <;> rfl

/-- The named individual pattern searches of the classifier. -/
def hasCaseWhen (s : String) : Bool :=
  searchFrom (fun _ cs => caseWhenAt cs) false s.toList

def hasFnCall (name : String) (s : String) : Bool :=
  searchFrom (fun w cs => fnCallAt w cs name.toList) false s.toList

def hasLiteral (lit : String) (s : String) : Bool :=
  searchFrom (fun w cs => litAt w cs lit.toList) false s.toList

def hasArithmetic (s : String) : Bool :=
  searchFrom (fun _ cs => arithAt cs) false s.toList

/-- C3 — The calculated-field classifier rejects the bare reference
`[DS].[T].[C]` and the simple aggregate `SUM([T].[C])`, accepts the CASE
expression and the arithmetic combination; and in general an expression
is classified as a calculated field exactly when it matches one of the
CASE/IF, COALESCE/cast, current-date/timestamp, min/max/abs or
arithmetic-operator patterns — so a bare simple aggregate or bare column
reference (which matches none of them) is never classified as a
calculated field. -/
theorem calc_classifier_c3 :
    expressionIsCalculatedField (some "[DS].[T].[C]") = false
    ∧ expressionIsCalculatedField (some "SUM([T].[C])") = false
    ∧ expressionIsCalculatedField
        (some "CASE WHEN [T].[C] > 0 THEN 1 ELSE 0 END") = true
    ∧ expressionIsCalculatedField (some "[T].[A] + [T].[B]") = true
    ∧ (∀ e : String, e ≠ "" →
        (expressionIsCalculatedField (some e) = true ↔
          (hasCaseWhen (pyStrip e)
           || hasFnCall "if" (pyStrip e)
           || hasFnCall "abs" (pyStrip e)
           || hasFnCall "minimum" (pyStrip e)
           || hasFnCall "maximum" (pyStrip e)
           || hasFnCall "cast" (pyStrip e)
           || hasLiteral "current_date" (pyStrip e)
           || hasLiteral "current_timestamp" (pyStrip e)
           || hasFnCall "coalesce" (pyStrip e)
           || hasArithmetic (pyStrip e)) = true)) := by
  refine ⟨by decide, by decide, by decide, by decide, ?_⟩
  intro e he
  have hsplit : calcRegexSearch (pyStrip e)
      = (hasCaseWhen (pyStrip e)
         || hasFnCall "if" (pyStrip e)
         || hasFnCall "abs" (pyStrip e)
         || hasFnCall "minimum" (pyStrip e)
         || hasFnCall "maximum" (pyStrip e)
         || hasFnCall "cast" (pyStrip e)
         || hasLiteral "current_date" (pyStrip e)
         || hasLiteral "current_timestamp" (pyStrip e)
         || hasFnCall "coalesce" (pyStrip e)
         || hasArithmetic (pyStrip e)) := by
    unfold calcRegexSearch hasCaseWhen hasFnCall hasLiteral hasArithmetic
    unfold calcPattAt
    rw [searchFrom_or, searchFrom_or, searchFrom_or, searchFrom_or,
        searchFrom_or, searchFrom_or, searchFrom_or, searchFrom_or,
        searchFrom_or]
  simp only [expressionIsCalculatedField, he, if_neg, if_false, hsplit]

/-- Witness for the quantified clause of C3 at a concrete expression. -/
theorem calc_classifier_c3_witness :
    expressionIsCalculatedField (some "[T].[A] + [T].[B]") = true ↔
      (hasCaseWhen (pyStrip "[T].[A] + [T].[B]")
       || hasFnCall "if" (pyStrip "[T].[A] + [T].[B]")
       || hasFnCall "abs" (pyStrip "[T].[A] + [T].[B]")
       || hasFnCall "minimum" (pyStrip "[T].[A] + [T].[B]")
       || hasFnCall "maximum" (pyStrip "[T].[A] + [T].[B]")
       || hasFnCall "cast" (pyStrip "[T].[A] + [T].[B]")
       || hasLiteral "current_date" (pyStrip "[T].[A] + [T].[B]")
       || hasLiteral "current_timestamp" (pyStrip "[T].[A] + [T].[B]")
       || hasFnCall "coalesce" (pyStrip "[T].[A] + [T].[B]")
       || hasArithmetic (pyStrip "[T].[A] + [T].[B]")) = true :=
  calc_classifier_c3.2.2.2.2 "[T].[A] + [T].[B]" (by decide)

/-! ## Usage-code normalization (`data_module_extractor.py`)

The usage indicator read from the JSON blob can be a string or a small
integer.  `normalizeUsage` embeds the normalization block that appears
(verbatim twice) at lines 586-593 and 755-762, `mapAggregate` the
aggregate mapping at lines 604-607, and `columnObjectType` the emitted
object-kind decision at lines 629-635. -/

/-- A scalar Python value as it comes out of `json.loads` for the
`usage` / `regularAggregate` fields. -/
inductive PyVal where
  | null : PyVal
  | bool (b : Bool) : PyVal
  | int (n : Int) : PyVal
  | str (s : String) : PyVal
deriving Repr, DecidableEq, Inhabited

/-- Python `str(x)` for the scalars above. -/
def pyToString : PyVal → String
  | .null => "None"
  | .bool true => "True"
  | .bool false => "False"
  | .int n => toString n
  | .str s => s

/-- Python `==` between the scalars above (`True == 1`, `False == 0`;
int/str never equal). -/
def pyEq : PyVal → PyVal → Bool
  | .null, .null => true
  | .bool a, .bool b => a = b
  | .bool a, .int n => (if a then (1 : Int) else 0) = n
  | .int n, .bool a => n = (if a then (1 : Int) else 0)
  | .int n, .int m => n = m
  | .str a, .str b => a = b
  | _, _ => false

/-- `DATA_USAGE_MAP` (lines 46-51). -/
def DATA_USAGE_MAP : List (String × String) :=
  [("", "unknown"), ("0", "attribute"), ("1", "dimension"), ("2", "measure")]

/-- `AGGREGATION_MAP` (lines 54-61). -/
def AGGREGATION_MAP : List (String × String) :=
  [("none", "none"), ("total", "sum"), ("count", "count"),
   ("average", "average"), ("minimum", "minimum"), ("maximum", "maximum")]

/-- `DATA_TYPE_MAP` (lines 32-43). -/
def DATA_TYPE_MAP : List (String × String) :=
  [("1", "boolean"), ("2", "integer"), ("3", "string"), ("4", "float"),
   ("5", "double"), ("6", "timestamp"), ("7", "date"), ("8", "time"),
   ("9", "decimal"), ("10", "binary")]

/-- Usage normalization (lines 586-593, identical block at 755-762):
stringify and look up in `DATA_USAGE_MAP`; on a miss fall back to the
string/int comparisons of the source. -/
def normalizeUsage (usage : PyVal) : String :=
  let usage_str := if usage = PyVal.null then "" else pyStrip (pyToString usage)
  let data_usage := (DATA_USAGE_MAP.lookup usage_str).getD "unknown"
  if data_usage = "unknown" ∧ usage_str ≠ "" then
    if pyEq usage (.str "fact") || pyEq usage (.str "measure")
        || pyEq usage (.int 2) then "measure"
    else if pyEq usage (.str "attribute") || pyEq usage (.str "dimension")
        || pyEq usage (.int 0) || pyEq usage (.int 1) then
      (if pyEq usage (.int 1) || pyEq usage (.str "dimension")
       then "dimension" else "attribute")
    else data_usage
  else data_usage

/-- Aggregate mapping (lines 604-607): `None`/empty maps to "none",
otherwise look up `str(aggregate).lower()` falling back to the raw
string. -/
def mapAggregate (aggregate : PyVal) : String :=
  if aggregate ≠ PyVal.null ∧ pyEq aggregate (.str "") = false then
    (AGGREGATION_MAP.lookup (pyLower (pyToString aggregate))).getD
      (pyToString aggregate)
  else "none"

/-- Emitted object kind for a column (lines 629-635): measure when the
normalized usage is "measure" or an aggregate is set, dimension when the
usage is "dimension" or "attribute", plain column otherwise. -/
def columnObjectType (data_usage agg_type : String) : ObjectType :=
  if data_usage = "measure" ∨ agg_type ≠ "none" then .measure
  else if data_usage = "dimension" ∨ data_usage = "attribute" then .dimension
  else .column

/-- C4 — Both encodings of the usage indicator normalize alike: integer
`2` and string `"measure"` classify a column as a measure, and integer
`0` / string `"attribute"` classify it as a dimension for the emitted
object kind (attribute is treated as a dimension downstream). -/
theorem usage_normalization_c4 :
    normalizeUsage (.int 2) = "measure"
    ∧ normalizeUsage (.str "measure") = "measure"
    ∧ columnObjectType (normalizeUsage (.int 2)) (mapAggregate (.str "")) = .measure
    ∧ columnObjectType (normalizeUsage (.str "measure")) (mapAggregate (.str "")) = .measure
    ∧ normalizeUsage (.int 0) = "attribute"
    ∧ normalizeUsage (.str "attribute") = "attribute"
    ∧ columnObjectType (normalizeUsage (.int 0)) (mapAggregate (.str "")) = .dimension
    ∧ columnObjectType (normalizeUsage (.str "attribute")) (mapAggregate (.str "")) = .dimension := by
  refine ⟨by decide, by decide, by decide, by decide,
          by decide, by decide, by decide, by decide⟩

/-! ## JSON-value coercions used throughout the extractors -/

/-- Python `str(x)` of a scalar JSON value, as used when a value is
interpolated into an identifier or stored as a name.  The extractors only
ever stringify scalars; the placeholder for containers is never exercised
by a theorem in this file. -/
def Json.pyStr : Json → String
  | .null => "None"
  | .bool true => "True"
  | .bool false => "False"
  | .num n => toString n
  | .str s => s
  | .arr _ => "<list>"
  | .obj _ => "<dict>"

/-- View a scalar JSON value as the `PyVal` fed into the usage/aggregate
normalization (usage fields are JSON strings or numbers). -/
def Json.toPyVal : Json → PyVal
  | .null => .null
  | .bool b => .bool b
  | .num n => .int n
  | .str s => .str s
  | .arr _ => .null
  | .obj _ => .null

/-- Python truthiness of a `PyVal`. -/
def pyTruthy : PyVal → Bool
  | .null => false
  | .bool b => b
  | .int n => n != 0
  | .str s => !s.isEmpty

/-- The recurring normalization `if not isinstance(x, list): x = [x] if x
else []` of the data-module extractor. -/
def Json.toPyList : Json → List Json
  | .arr xs => xs
  | j => if j.truthy then [j] else []

/-- Insert-or-overwrite on an insertion-ordered association list
(`d[k] = v` on a Python dict). -/
def upsert {α : Type} : List (String × α) → String → α → List (String × α)
  | [], k, v => [(k, v)]
  | (k0, v0) :: rest, k, v =>
    if k0 = k then (k0, v) :: rest else (k0, v0) :: upsert rest k v

/-- `pat` is a prefix of the text. -/
def listStartsWith : List Char → List Char → Bool
  | _, [] => true
  | [], _ :: _ => false
  | c :: cs, p :: ps => c = p && listStartsWith cs ps

/-- `s.startswith(pat)` written over character lists so it evaluates by
reduction. -/
def pyStartsWith (s pat : String) : Bool := listStartsWith s.toList pat.toList

/-- The out-of-scope collaborators of the extractors (spec §1: archive and
low-level document readers are external), passed at their interface:
`json.loads` (None = `JSONDecodeError`), `base64.b64decode`,
gzip inflation (None = any decode exception), ISO-timestamp validity
(`datetime.fromisoformat` succeeding), and the static visualization-id
display-name table. -/
structure Env where
  jsonParse : String → Option Json
  b64decode : String → Option (List UInt8)
  gunzip : List UInt8 → Option String
  isoValid : String → Bool
  visIdToType : String → String

/-! ## `[datasource].[table].[column]` reference extraction

Embeds `re.findall(r'\[([^\]]+)\]\.\[([^\]]+)\]\.\[([^\]]+)\]', expr)`
(`data_module_extractor.py` lines 799, 818, 1119): a left-to-right scan
emitting non-overlapping matches; each group is one-or-more non-`]`
characters, exactly the behaviour of the greedy `[^\]]+`. -/

/-- Match `[grp]` at the head: the group must be non-empty and stops at
the first `]`. -/
def matchBracketGroup (cs : List Char) : Option (String × List Char) :=
  match cs with
  | '[' :: rest =>
    let grp := rest.takeWhile (fun c => c ≠ ']')
    let after := rest.dropWhile (fun c => c ≠ ']')
    if grp.isEmpty then none
    else
      match after with
      | ']' :: tail => some (String.mk grp, tail)
      | _ => none
  | _ => none

/-- Match `[a].[b].[c]` at the head, returning the groups and the rest. -/
def matchTriple (cs : List Char) : Option ((String × String × String) × List Char) :=
  match matchBracketGroup cs with
  | none => none
  | some (g1, r1) =>
    match r1 with
    | '.' :: r1b =>
      match matchBracketGroup r1b with
      | none => none
      | some (g2, r2) =>
        match r2 with
        | '.' :: r2b =>
          match matchBracketGroup r2b with
          | none => none
          | some (g3, r3) => some ((g1, g2, g3), r3)
        | _ => none
    | _ => none

/-- Fuel-bounded `findall` scan; the fuel is the input length, which
bounds the number of positions visited. -/
def findTriplesAux : Nat → List Char → List (String × String × String)
  | 0, _ => []
  | _, [] => []
  | fuel + 1, c :: cs =>
    match matchTriple (c :: cs) with
    | some (t, rest) => t :: findTriplesAux fuel rest
    | none => findTriplesAux fuel cs

/-- All `[a].[b].[c]` references of an expression, in order. -/
def findTripleRefs (s : String) : List (String × String × String) :=
  findTriplesAux s.toList.length s.toList

/-- `_SIMPLE_COLUMN_REF.match(expression.strip())`
(`dashboard_extractor.py` lines 20-28): the expression is nothing but a
single `[M].[T].[C]` reference surrounded by whitespace. -/
def expressionIsSimpleColumnReference : Option String → Bool
  | none => false
  | some e =>
    if e = "" then false
    else
      match matchTriple (skipWs (pyStrip e).toList) with
      | some (_, rest) => (skipWs rest).isEmpty
      | none => false

/-! ## Data-module smartsData extraction
(`data_module_extractor.py`, `DataModuleExtractor._extract_smarts_data`,
lines 441-839).  The body after `json.loads` is split into one definition
per section of the source, composed in source order by
`extractSmartsCore`. -/

namespace DataModuleExtractor

/-- The five return values of `_extract_smarts_data`:
`(objects, relationships, errors, tables, columns)`. -/
structure SmartsOut where
  objects : List ExtractedObject := []
  relationships : List Relationship := []
  errors : List ParseError := []
  tables : List ExtractedObject := []
  columns : List ExtractedObject := []
deriving Repr, Inhabited

/-- One iteration of the `useSpec` loop (lines 504-532): resolve the
reference, dedupe on `seen_use_spec_ids`, choose `USES` vs `CONNECTS_TO`
from the reference type and record the dependency edge. -/
def useSpecStep (module_id : String) (is_main : Bool)
    (acc : List String × List Relationship) (use_spec : Json) :
    List String × List Relationship :=
  let seen := acc.1
  let rels := acc.2
  let ref_store_id := use_spec.getD "storeID" .null
  let ref_type := use_spec.getD "type" (.str "module")
  let ref_identifier := use_spec.getD "identifier" (.str "")
  let sid := ref_store_id.pyStr
  if ref_store_id.truthy && !(seen.contains sid) then
    let dep_type :=
      if ref_type.isStr "dataSource" || ref_type.isStr "package"
          || ref_type.isStr "connection" then "data_source" else "module"
    let is_ds := ref_type.isStr "dataSource" || ref_type.isStr "package"
        || ref_type.isStr "connection"
        || ref_type.isStr "dataSourceReference"
    let rel_type := if is_ds then RelationshipType.connects_to else .uses
    let dep_type := if is_ds then "data_source" else dep_type
    (sid :: seen,
     rels ++ [{ source_id := module_id, target_id := sid,
                relationship_type := rel_type,
                properties := [("dependency_type", .str dep_type),
                               ("ref_type", ref_type),
                               ("identifier", ref_identifier),
                               ("source_is_main_module", .bool is_main)] }])
  else (seen, rels)

/-- The `useSpec` section (lines 499-532). -/
def extractUseSpecRels (moser : Json) (module_id : String) (is_main : Bool) :
    List Relationship :=
  ((moser.getD "useSpec" (.arr [])).toPyList.foldl
    (useSpecStep module_id is_main) ([], [])).2

/-- `RS_dataType`-style datatype mapping (lines 596-602 and 748-753). -/
def mapDataType (datatype : Json) : Json :=
  if datatype.truthy then
    match datatype with
    | .str s =>
      if !s.isEmpty && s.toList.all Char.isDigit
      then .str ((DATA_TYPE_MAP.lookup s).getD s)
      else .str s
    | d => d
  else .str "unknown"

/-- Accumulator of the querySubject loop (lines 538-539 and outputs). -/
structure QsAcc where
  seen_table_ids : List String := []
  seen_column_ids : List String := []
  tables : List ExtractedObject := []
  columns : List ExtractedObject := []
  rels : List Relationship := []
deriving Repr, Inhabited

/-- One `queryItem` of a querySubject (lines 574-645): column identity,
usage/datatype/aggregate normalization, object-kind choice and the
`HAS_COLUMN` edge, deduped on `seen_column_ids`. -/
def processQueryItem (module_id qs_name table_id : String)
    (acc : QsAcc) (qi : Json) : QsAcc :=
  let col_name := ((qi.getD "name" .null).orElse
      (qi.getD "identifier" (.str "Unknown"))).pyStr
  let col_id := (qi.getD "id" .null).orElse (qi.getD "identifier" (.str ""))
  let column_id := module_id ++ ":col:" ++ qs_name ++ "." ++ col_name
  if acc.seen_column_ids.contains column_id then acc
  else
    let expression := qi.getD "expression" (.str "")
    let usage := qi.getD "usage" (.str "")
    let datatype := qi.getD "datatype" (.str "")
    let aggregate := qi.getD "regularAggregate" (.str "")
    let data_usage := normalizeUsage usage.toPyVal
    let data_type := mapDataType datatype
    let agg_type := mapAggregate aggregate.toPyVal
    let column_obj : ExtractedObject :=
      { object_id := column_id,
        object_type := columnObjectType data_usage agg_type,
        name := col_name,
        parent_id := some table_id,
        properties := [("table", .str qs_name),
                       ("full_path", .str (qs_name ++ "." ++ col_name)),
                       ("identifier", col_id),
                       ("expression", expression),
                       ("data_type", data_type),
                       ("data_usage", .str data_usage),
                       ("aggregate", .str agg_type),
                       ("usage", usage),
                       ("datatype", datatype),
                       ("cognosClass", .str "queryItem"),
                       ("source", .str "moserJSON")],
        bi_tool := "cognos" }
    { acc with
      seen_column_ids := column_id :: acc.seen_column_ids,
      columns := acc.columns ++ [column_obj],
      rels := acc.rels ++ [{ source_id := table_id, target_id := column_id,
                             relationship_type := .has_column }] }

/-- One querySubject (lines 540-645): table identity (deduped on
`seen_table_ids`), the `CONTAINS` edge and the nested queryItem loop. -/
def processQuerySubject (module_id module_name : String)
    (acc : QsAcc) (qs : Json) : QsAcc :=
  let qs_name := ((qs.getD "name" .null).orElse
      (qs.getD "identifier" (.str "Unknown"))).pyStr
  let qs_id := (qs.getD "id" .null).orElse (qs.getD "identifier" (.str ""))
  let table_id := module_id ++ ":table:" ++ qs_name
  if acc.seen_table_ids.contains table_id then acc
  else
    let table_obj : ExtractedObject :=
      { object_id := table_id, object_type := .table, name := qs_name,
        parent_id := some module_id,
        properties := [("cognosClass", .str "querySubject"),
                       ("module_name", .str module_name),
                       ("source_id", qs_id)],
        bi_tool := "cognos" }
    let acc :=
      { acc with
        seen_table_ids := table_id :: acc.seen_table_ids,
        tables := acc.tables ++ [table_obj],
        rels := acc.rels ++ [{ source_id := module_id, target_id := table_id,
                               relationship_type := .contains }] }
    (qs.getD "queryItem" (.arr [])).toPyList.foldl
      (processQueryItem module_id qs_name table_id) acc

/-- The querySubject section (lines 534-645). -/
def extractQuerySubjects (moser : Json) (module_id module_name : String) : QsAcc :=
  (moser.getD "querySubject" (.arr [])).toPyList.foldl
    (processQuerySubject module_id module_name) {}

/-- One join entry (lines 652-678), deduped on the unordered table pair. -/
def joinStep (module_id : String)
    (acc : List (String × String) × List Relationship) (rel_data : Json) :
    List (String × String) × List Relationship :=
  let left_qs := rel_data.getD "leftQuerySubject" .null
  let right_qs := rel_data.getD "rightQuerySubject" .null
  let join_type := rel_data.getD "cardinality" (.str "inner")
  let join_condition := rel_data.getD "expression" (.str "")
  if left_qs.truthy && right_qs.truthy then
    let left_table_id := module_id ++ ":table:" ++ left_qs.pyStr
    let right_table_id := module_id ++ ":table:" ++ right_qs.pyStr
    let pair := (min left_table_id right_table_id,
                 max left_table_id right_table_id)
    if acc.1.contains pair then acc
    else
      (pair :: acc.1,
       acc.2 ++ [{ source_id := left_table_id, target_id := right_table_id,
                   relationship_type := .joins_to,
                   properties := [("join_type", join_type),
                                  ("join_condition", join_condition),
                                  ("left_table", left_qs),
                                  ("right_table", right_qs),
                                  ("source", .str "moserJSON")] }])
  else acc

/-- The join section (lines 647-678). -/
def extractJoins (moser : Json) (module_id : String) : List Relationship :=
  ((moser.getD "relationship" (.arr [])).toPyList.foldl
    (joinStep module_id) ([], [])).2

/-- The reference-field keys scanned for data-source connections
(line 681). -/
def dataSourceKeys : List String :=
  ["dataSource", "dataSourceReference", "package", "packageReference",
   "connection"]

/-- One entry of one reference field (lines 688-704): resolve the id from
`id`/`storeID`/`identifier`, dedupe on `seen_ds_ids`, emit `CONNECTS_TO`. -/
def dsConnStep (module_id : String) (is_main : Bool) (key : String)
    (acc : List String × List Relationship) (ds : Json) :
    List String × List Relationship :=
  let ds_id := (ds.getD "id" .null).orElse
      ((ds.getD "storeID" .null).orElse (ds.getD "identifier" .null))
  if ds_id.truthy && !(acc.1.contains ds_id.pyStr) then
    (ds_id.pyStr :: acc.1,
     acc.2 ++ [{ source_id := module_id, target_id := ds_id.pyStr,
                 relationship_type := .connects_to,
                 properties := [("connection_type", ds.getD "type" (.str key)),
                                ("data_source_name", ds.getD "name" (.str "")),
                                ("source_key", .str key),
                                ("source_is_main_module", .bool is_main)] }])
  else acc

/-- The reference-field section (lines 680-704): scan the five keys in
order, sharing one `seen_ds_ids` set. -/
def extractDsConns (moser : Json) (module_id : String) (is_main : Bool) :
    List String × List Relationship :=
  dataSourceKeys.foldl
    (fun acc key =>
      (moser.getD key (.arr [])).toPyList.foldl
        (dsConnStep module_id is_main key) acc)
    ([], [])

/-- The `dataRetrievalMode` section (lines 706-725), continuing the same
`seen_ds_ids` set. -/
def extractRetrievalConn (moser : Json) (module_id : String) (is_main : Bool)
    (acc : List String × List Relationship) :
    List String × List Relationship :=
  match moser.get "dataRetrievalMode" with
  | none => acc
  | some retrieval_mode =>
    match retrieval_mode.asObj? with
    | none => acc
    | some _ =>
      let ds_ref := (retrieval_mode.getD "dataSource" .null).orElse
          (retrieval_mode.getD "package" .null)
      if ds_ref.truthy then
        let ds_id : Json :=
          match ds_ref with
          | .obj _ => (ds_ref.getD "id" .null).orElse (ds_ref.getD "storeID" .null)
          | other => .str other.pyStr
        if ds_id.truthy && !(acc.1.contains ds_id.pyStr) then
          (ds_id.pyStr :: acc.1,
           acc.2 ++ [{ source_id := module_id, target_id := ds_id.pyStr,
                       relationship_type := .connects_to,
                       properties :=
                         [("connection_type", .str "data_retrieval"),
                          ("source", .str "dataRetrievalMode"),
                          ("source_is_main_module", .bool is_main)] }])
        else acc
      else acc

/-- Aggregate mapping of the calculation section (line 767), whose
fallback default differs from the queryItem one: a truthy aggregate falls
back to its own string, a falsy one to "none". -/
def mapAggregateCalc (aggregate : PyVal) : String :=
  if aggregate ≠ PyVal.null ∧ pyEq aggregate (.str "") = false then
    (AGGREGATION_MAP.lookup (pyLower (pyToString aggregate))).getD
      (if pyTruthy aggregate then pyToString aggregate else "none")
  else "none"

/-- One embedded calculation (lines 733-830): the calculated-field
object (always `CALCULATED_FIELD`), its `CONTAINS` edge, `DEPENDS_ON`
edges from the `[ds].[table].[col]` references of the expression, and
`AGGREGATES` edges when used as an aggregated measure; deduped on
`seen_calc_ids`. -/
def calcStep (module_id : String)
    (acc : List String × List ExtractedObject × List Relationship)
    (calcJ : Json) :
    List String × List ExtractedObject × List Relationship :=
  let seen := acc.1
  let objs := acc.2.1
  let rels := acc.2.2
  let calc_id := module_id ++ ":emb_calc:"
      ++ (calcJ.getD "identifier" (.str "unknown")).pyStr
  if seen.contains calc_id then acc
  else
    let calc_name := (calcJ.getD "label"
        (calcJ.getD "identifier" (.str "Unknown"))).pyStr
    let expression := calcJ.getD "expression" (.str "")
    let usage := calcJ.getD "usage" (.str "")
    let datatype := calcJ.getD "datatype" (.str "")
    let aggregate := calcJ.getD "regularAggregate" (.str "")
    let data_type := mapDataType datatype
    let data_usage := normalizeUsage usage.toPyVal
    let agg_type := mapAggregateCalc aggregate.toPyVal
    let calc_obj : ExtractedObject :=
      { object_id := calc_id, object_type := .calculated_field,
        name := calc_name, parent_id := some module_id,
        properties := [("expression", expression),
                       ("usage", usage),
                       ("data_usage", .str data_usage),
                       ("datatype", datatype),
                       ("data_type", data_type),
                       ("aggregate", .str agg_type),
                       ("regularAggregate", aggregate),
                       ("cognosClass", .str "embeddedCalculation"),
                       ("source", .str "moserJSON")],
        bi_tool := "cognos" }
    let contains_rel : Relationship :=
      { source_id := module_id, target_id := calc_id,
        relationship_type := .contains }
    let dep_rels : List Relationship :=
      if expression.truthy then
        (findTripleRefs expression.pyStr).map (fun t =>
          { source_id := calc_id,
            target_id := module_id ++ ":col:" ++ t.2.1 ++ "." ++ t.2.2,
            relationship_type := .depends_on,
            properties := [("dependency_type", .str "column_reference"),
                           ("referenced_path",
                            .str (t.1 ++ "." ++ t.2.1 ++ "." ++ t.2.2))] })
      else []
    let agg_rels : List Relationship :=
      if data_usage = "measure" ∧ aggregate.truthy then
        if expression.truthy then
          (findTripleRefs expression.pyStr).map (fun t =>
            { source_id := calc_id,
              target_id := module_id ++ ":col:" ++ t.2.1 ++ "." ++ t.2.2,
              relationship_type := .aggregates,
              properties := [("aggregate_type", aggregate),
                             ("base_column", .str t.2.2)] })
        else []
      else []
    (calc_id :: seen, objs ++ [calc_obj],
     rels ++ [contains_rel] ++ dep_rels ++ agg_rels)

/-- The calculation section (lines 727-830). -/
def extractCalculations (moser : Json) (module_id : String) :
    List ExtractedObject × List Relationship :=
  let out := (moser.getD "calculation" (.arr [])).toPyList.foldl
    (calcStep module_id) ([], [], [])
  (out.2.1, out.2.2)

/-- The body of `_extract_smarts_data` after a successful `json.loads`
(lines 496-830), with objects/relationships accumulated in source order.
Only calculation objects go to `objects`; tables and columns are returned
in their own lists. -/
def extractSmartsCore (data : Json) (module_id module_name : String)
    (is_main : Bool) : SmartsOut :=
  let moser := (data.getD "moserJSON" .null).orElse data
  let useRels := extractUseSpecRels moser module_id is_main
  let q := extractQuerySubjects moser module_id module_name
  let joinRels := extractJoins moser module_id
  let dsAcc := extractDsConns moser module_id is_main
  let dsAcc := extractRetrievalConn moser module_id is_main dsAcc
  let calcs := extractCalculations moser module_id
  { objects := calcs.1,
    relationships := useRels ++ q.rels ++ joinRels ++ dsAcc.2 ++ calcs.2,
    errors := [],
    tables := q.tables,
    columns := q.columns }

/-- The base64/gzip decode chain (lines 480-487): when the content looks
base64-like, try to decode; inflate only when the bytes carry the gzip
magic; any failure leaves the content unchanged (`except: pass`). -/
def decodeContent (env : Env) (content : String) : String :=
  if pyStartsWith (pyStrip content) "H4sI"
      || (decide (content.length > 100)
          && !pyStartsWith (pyStrip content) "\x7b") then
    match env.b64decode content with
    | none => content
    | some raw =>
      match raw with
      | b1 :: b2 :: _ =>
        if b1 = 0x1f ∧ b2 = 0x8b then (env.gunzip raw).getD content
        else content
      | _ => content
  else content

/-- `_extract_smarts_data` (lines 441-839) over the blob text (`none`
models a missing/empty text node): strip, run the decode chain, parse as
JSON; an empty blob or a parse failure returns the empty result with *no*
diagnostic (lines 477-478 and 492-494). -/
def extractSmartsData (env : Env) (contentOpt : Option String)
    (module_id module_name : String) (is_main : Bool) : SmartsOut :=
  match contentOpt with
  | none => {}
  | some content0 =>
    let content := pyStrip content0
    if content = "" then {}
    else
      let content := decodeContent env content
      match env.jsonParse content with
      | none => {}
      | some data => extractSmartsCore data module_id module_name is_main

/-! ## Data-module tags extraction and top-level `extract`
(`data_module_extractor.py` lines 108-302 and 304-439). -/

/-- `MAIN_MODULE_COGNOS_CLASSES` (line 29). -/
def MAIN_MODULE_COGNOS_CLASSES : List String := ["module", "dataModule", "model"]

/-- The property paths the extractor reads from the module XML node;
`none` models an absent element (`XmlHandler.get_text` returning the
default `None`). -/
structure ModuleProps where
  creationTime : Option String := none
  modificationTime : Option String := none
  owner : Option String := none
  displaySequence : Option String := none
  hidden : Option String := none
  tenantID : Option String := none
  smartsData : Option String := none
  tags : Option (List String) := none
deriving Repr, Inhabited

/-- A raw module XML object node, reduced to the fields the extractor
reads through the (out-of-scope) XML reader. -/
structure ModuleNode where
  id : String
  name : String := "<unnamed>"
  parentId : Option String := none
  storeID : Option String := none
  cognosClass : Option String := none
  props : Option ModuleProps := none
deriving Repr, Inhabited

/-- Python `int(s)` for the `displaySequence` property. -/
def pyInt? (s : String) : Option Int :=
  let l := (pyStrip s).toList
  let signDigits : Int × List Char :=
    match l with
    | '-' :: rest => (-1, rest)
    | '+' :: rest => (1, rest)
    | _ => (1, l)
  if !signDigits.2.isEmpty && signDigits.2.all Char.isDigit then
    some (signDigits.1 *
      ((signDigits.2.foldl (fun n c => n * 10 + (c.toNat - 48)) 0 : Nat) : Int))
  else none

/-- `tag_value.split('.', 1)`. -/
def splitFirstDot (s : String) : String × Option String :=
  let l := s.toList
  let front := l.takeWhile (fun c => c ≠ '.')
  match l.dropWhile (fun c => c ≠ '.') with
  | [] => (String.mk front, none)
  | _ :: tail => (String.mk front, some (String.mk tail))

/-- Accumulator/outputs of `_extract_tables_and_columns`. -/
structure TagsOut where
  table_map : List (String × ExtractedObject) := []
  tables : List ExtractedObject := []
  columns : List ExtractedObject := []
  table_rels : List Relationship := []
  column_rels : List Relationship := []
deriving Repr, Inhabited

/-- One `item` of the tags list (lines 340-437): resolve or create the
table (smartsData tables win and are only referenced, not re-created),
then create the column unless the `(table, column)` pair already exists
in the smartsData map. -/
def tagsStep (module_id module_name : String)
    (smartsColsByPath smartsTablesByName : List (String × ExtractedObject))
    (acc : TagsOut) (itemText : String) : TagsOut :=
  if itemText = "" then acc
  else
    let tag_value := pyStrip itemText
    let mkTable (table_name : String) (acc : TagsOut) : TagsOut :=
      match smartsTablesByName.lookup table_name with
      | some tobj => { acc with table_map := upsert acc.table_map table_name tobj }
      | none =>
        if (acc.table_map.lookup table_name).isSome then acc
        else
          let table_id := module_id ++ ":table:" ++ table_name
          let table_obj : ExtractedObject :=
            { object_id := table_id, object_type := .table, name := table_name,
              parent_id := some module_id,
              properties := [("cognosClass", .str "querySubject"),
                             ("module_name", .str module_name)],
              bi_tool := "cognos" }
          { acc with
            table_map := upsert acc.table_map table_name table_obj,
            tables := acc.tables ++ [table_obj],
            table_rels := acc.table_rels ++
              [{ source_id := module_id, target_id := table_id,
                 relationship_type := .contains }] }
    match splitFirstDot tag_value with
    | (table_name, some column_name) =>
      let acc := mkTable table_name acc
      if column_name ≠ "" then
        if (smartsColsByPath.lookup tag_value).isSome then acc
        else
          match acc.table_map.lookup table_name with
          | none => acc
          | some tobj =>
            let column_id := module_id ++ ":col:" ++ tag_value
            let column_obj : ExtractedObject :=
              { object_id := column_id, object_type := .column,
                name := column_name, parent_id := some tobj.object_id,
                properties := [("table", .str table_name),
                               ("full_path", .str tag_value),
                               ("identifier", .str tag_value),
                               ("cognosClass", .str "queryItem"),
                               ("source", .str "tags")],
                bi_tool := "cognos" }
            { acc with
              columns := acc.columns ++ [column_obj],
              column_rels := acc.column_rels ++
                [{ source_id := tobj.object_id, target_id := column_id,
                   relationship_type := .has_column }] }
      else acc
    | (_, none) => mkTable tag_value acc

/-- `_extract_tables_and_columns` (lines 304-439) over the tag item
texts. -/
def extractTablesAndColumns (items : List String)
    (module_id module_name : String)
    (smartsColsByPath smartsTablesByName : List (String × ExtractedObject)) :
    TagsOut :=
  items.foldl
    (tagsStep module_id module_name smartsColsByPath smartsTablesByName) {}

/-- The `full_path` key of a column object, as recomputed at lines 218
and 247: the stored `full_path` property, falling back to
`"<table>.<name>"`. -/
def columnFullPath (col : ExtractedObject) : String :=
  let fp := (col.properties.lookup "full_path").getD .null
  if fp.truthy then fp.pyStr
  else ((col.properties.lookup "table").getD (.str "")).pyStr ++ "." ++ col.name

set_option maxHeartbeats 1000000 in
/-- `DataModuleExtractor.extract` (lines 108-302): module identity and
properties, smartsData extraction, the tags pass with rich-blob
precedence, counts, the module object and its parent edge.  Mirrors the
source exactly; in particular only `smarts_objects` (the embedded
calculations) are merged into `objects` — the smartsData table/column
objects are returned by `_extract_smarts_data` in separate lists that
the source never appends to `objects`. -/
def extract (env : Env) (node : ModuleNode) :
    List ExtractedObject × List Relationship × List ParseError :=
  let obj_id := node.id
  let name := node.name
  let is_main :=
    match node.cognosClass with
    | some c => MAIN_MODULE_COGNOS_CLASSES.contains c
    | none => false
  let props0 : List (String × Json) :=
    [("storeID", match node.storeID with | some s => .str s | none => .null),
     ("cognosClass", match node.cognosClass with | some s => .str s | none => .null),
     ("is_main_module", .bool is_main)]
  let pOpt := node.props
  let created_at :=
    pOpt.bind (fun p => p.creationTime.bind (fun t =>
      if env.isoValid t then some t else none))
  let modified_at :=
    pOpt.bind (fun p => p.modificationTime.bind (fun t =>
      if env.isoValid t then some t else none))
  let owner := pOpt.bind (fun p => p.owner)
  let optionalProps : List (String × Json) :=
    (match created_at with | some t => [("creationTime", Json.str t)] | none => [])
    ++ (match modified_at with | some t => [("modificationTime", Json.str t)] | none => [])
    ++ (match owner with
        | some o => if o ≠ "" then [("owner", Json.str o)] else []
        | none => [])
    ++ (match pOpt.bind (fun p => p.displaySequence) with
        | some d => (match pyInt? d with
                     | some n => [("displaySequence", Json.num n)]
                     | none => [])
        | none => [])
    ++ (match pOpt.bind (fun p => p.hidden) with
        | some h => if h ≠ "" then [("hidden", Json.bool (pyLower h = "true"))] else []
        | none => [])
    ++ (match pOpt.bind (fun p => p.tenantID) with
        | some t => if t ≠ "" then [("tenantID", Json.str t)] else []
        | none => [])
  let smarts :=
    match pOpt with
    | some p => extractSmartsData env p.smartsData obj_id name is_main
    | none => {}
  let smartsColsByPath :=
    smarts.columns.foldl (fun m col => upsert m (columnFullPath col) col) []
  let smartsTablesByName :=
    smarts.tables.foldl (fun m t => upsert m t.name t) []
  let tagsOut :=
    match pOpt.bind (fun p => p.tags) with
    | some items =>
      extractTablesAndColumns items obj_id name smartsColsByPath smartsTablesByName
    | none => ({} : TagsOut)
  let tagTables :=
    tagsOut.tables.foldl
      (fun (acc : List ExtractedObject × List Relationship) t =>
        if (smartsTablesByName.lookup t.name).isNone then
          (acc.1 ++ [t],
           acc.2 ++ tagsOut.table_rels.filter (fun r => r.target_id = t.object_id))
        else acc) ([], [])
  let tagCols :=
    tagsOut.columns.foldl
      (fun (acc : List ExtractedObject × List Relationship) c =>
        if (smartsColsByPath.lookup (columnFullPath c)).isSome then acc
        else
          (acc.1 ++ [c],
           acc.2 ++ tagsOut.column_rels.filter (fun r => r.target_id = c.object_id)))
      ([], [])
  let objects := smarts.objects ++ tagTables.1 ++ tagCols.1
  let table_count := smarts.tables.length + tagTables.1.length
  let column_count := smarts.columns.length + tagCols.1.length
  let calculated_field_count :=
    (objects.filter (fun o => o.object_type = .calculated_field)).length
  let filter_count := (objects.filter (fun o => o.object_type = .filter)).length
  let properties := props0 ++ optionalProps ++
    [("table_count", .num table_count),
     ("column_count", .num column_count),
     ("calculated_field_count", .num calculated_field_count),
     ("filter_count", .num filter_count)]
  let data_module : ExtractedObject :=
    { object_id := obj_id, object_type := .data_module, name := name,
      parent_id := node.parentId, properties := properties,
      created_at := created_at, modified_at := modified_at, owner := owner,
      bi_tool := "cognos" }
  let parentRels : List Relationship :=
    match node.parentId with
    | some p =>
      if p ≠ "" then
        [{ source_id := p, target_id := obj_id,
           relationship_type := .parent_child,
           properties := [("target_is_main_module", .bool is_main)] }]
      else []
    | none => []
  (objects ++ [data_module],
   smarts.relationships ++ tagTables.2 ++ tagCols.2 ++ parentRels,
   smarts.errors)

end DataModuleExtractor

/-! ## Fold-invariant machinery for the dedup proofs -/

/-- A generic preservation principle for left folds. -/
theorem foldl_preserve {α β : Type} (P : α → Prop) (f : α → β → α)
    (hf : ∀ a b, P a → P (f a b)) :
    ∀ (l : List β) (a : α), P a → P (l.foldl f a) := by
  intro l
  induction l with
  | nil => intro a h; exact h
  | cons x xs ih => intro a h; exact ih _ (hf _ _ h)

/-- Seen-set invariant of the connection-dedup folds: every emitted edge
target is recorded in the seen set and the emitted targets are pairwise
distinct. -/
def SeenInv (acc : List String × List Relationship) : Prop :=
  (∀ r ∈ acc.2, r.target_id ∈ acc.1) ∧
    (acc.2.map Relationship.target_id).Nodup

theorem seenInv_nil : SeenInv ([], []) := by
  constructor
  · intro r hr; cases hr
  · simp

theorem seenInv_push (acc : List String × List Relationship)
    (rel : Relationship) (h : SeenInv acc)
    (hnot : rel.target_id ∉ acc.1) :
    SeenInv (rel.target_id :: acc.1, acc.2 ++ [rel]) := by
  obtain ⟨h1, h2⟩ := h
  constructor
  · intro r hr
    rcases List.mem_append.mp hr with hr | hr
    · exact List.mem_cons_of_mem _ (h1 r hr)
    · simp only [List.mem_singleton] at hr
      subst hr
      exact List.mem_cons_self _ _
  · rw [List.map_append]
    refine List.Nodup.append h2 (by simp) ?_
    intro t ht1 ht2
    simp only [List.map_cons, List.map_nil, List.mem_singleton] at ht2
    subst ht2
    rcases List.mem_map.mp ht1 with ⟨r, hrmem, hrt⟩
    exact hnot (hrt ▸ h1 r hrmem)

namespace DataModuleExtractor

theorem useSpecStep_inv (mid : String) (main : Bool)
    (acc : List String × List Relationship) (us : Json)
    (h : SeenInv acc) : SeenInv (useSpecStep mid main acc us) := by
  simp only [useSpecStep]
  split
  · rename_i hg
    refine seenInv_push acc _ h ?_
    rw [Bool.and_eq_true] at hg
    obtain ⟨-, hnc⟩ := hg
    simpa using hnc
  · exact h

theorem dsConnStep_inv (mid : String) (main : Bool) (key : String)
    (acc : List String × List Relationship) (ds : Json)
    (h : SeenInv acc) : SeenInv (dsConnStep mid main key acc ds) := by
  simp only [dsConnStep]
  split
  · rename_i hg
    refine seenInv_push acc _ h ?_
    rw [Bool.and_eq_true] at hg
    obtain ⟨-, hnc⟩ := hg
    simpa using hnc
  · exact h

theorem extractDsConns_inv (moser : Json) (mid : String) (main : Bool) :
    SeenInv (extractDsConns moser mid main) := by
  unfold extractDsConns
  refine foldl_preserve SeenInv _ ?_ _ _ seenInv_nil
  intro acc key hacc
  exact foldl_preserve SeenInv _
    (fun a b ha => dsConnStep_inv mid main key a b ha) _ _ hacc

theorem extractRetrievalConn_inv (moser : Json) (mid : String) (main : Bool)
    (acc : List String × List Relationship) (h : SeenInv acc) :
    SeenInv (extractRetrievalConn moser mid main acc) := by
  unfold extractRetrievalConn
  split
  · exact h
  · split
    · exact h
    · simp only []
      split
      · split
        · rename_i hg
          refine seenInv_push acc _ h ?_
          rw [Bool.and_eq_true] at hg
          obtain ⟨-, hnc⟩ := hg
          simpa using hnc
        · exact h
      · exact h

end DataModuleExtractor

/-! ## Claim C7: connection-edge dedup inside the rich blob -/

/-- The moserJSON blob of the C7 counterexample: the module references the
same external id `X` once through `useSpec` (typed as a data source) and
once through the `dataSource` reference field. -/
def c7Moser : Json :=
  .obj [("useSpec", .arr [.obj [("storeID", .str "X"),
                                ("type", .str "dataSource")]]),
        ("dataSource", .arr [.obj [("id", .str "X")]])]

/-- Counterexample to C7 as stated: `useSpec` keeps its own seen set
(`seen_use_spec_ids`, line 503) separate from the `seen_ds_ids` set of the
other reference fields (line 682), so one rich blob naming the same
external id in `useSpec` and in `dataSource` yields *two* `CONNECTS_TO`
edges targeting that id — dedup is not global across all discovery
paths. -/
theorem connection_dedup_c7_counterexample :
    ((DataModuleExtractor.extractSmartsCore c7Moser "m1" "M" true).relationships.filter
        (fun r => r.source_id == "m1" && r.target_id == "X"
          && r.relationship_type == RelationshipType.connects_to)).length = 2 := by
  decide

/-- C7 (amended) — Connection discovery through the reference fields
`dataSource`, `dataSourceReference`, `package`, `packageReference`,
`connection` and the nested `dataRetrievalMode` reference shares one
seen-id set, so at most one connection edge per resolved external id is
emitted across *those* paths; the `useSpec` path is deduplicated
separately among its own edges.  An id appearing both in `useSpec` and in
another reference field can therefore receive two connection edges (see
the counterexample). -/
theorem connection_dedup_c7_amended (moser : Json) (mid : String) (main : Bool) :
    (((DataModuleExtractor.extractRetrievalConn moser mid main
          (DataModuleExtractor.extractDsConns moser mid main)).2).map
        Relationship.target_id).Nodup
    ∧ ((DataModuleExtractor.extractUseSpecRels moser mid main).map
        Relationship.target_id).Nodup := by
  constructor
  · exact (DataModuleExtractor.extractRetrievalConn_inv moser mid main _
      (DataModuleExtractor.extractDsConns_inv moser mid main)).2
  · unfold DataModuleExtractor.extractUseSpecRels
    exact (foldl_preserve SeenInv _
      (fun a b ha => DataModuleExtractor.useSpecStep_inv mid main a b ha)
      _ _ seenInv_nil).2

/-! ## Claim C8: decode-chain failure behaviour -/

/-- C8 (amended) — When the (possibly decoded) smartsData blob does not
parse as JSON, `_extract_smarts_data` degrades to a completely empty
result with *no* diagnostic: the `json.JSONDecodeError` branch returns
silently (lines 492-494), and the embedded total function never raises. -/
theorem smartsData_parse_failure_c8 (env : Env) (content : String)
    (mid mname : String) (main : Bool)
    (h : env.jsonParse
        (DataModuleExtractor.decodeContent env (pyStrip content)) = none) :
    (DataModuleExtractor.extractSmartsData env (some content) mid mname main).objects = []
    ∧ (DataModuleExtractor.extractSmartsData env (some content) mid mname main).relationships = []
    ∧ (DataModuleExtractor.extractSmartsData env (some content) mid mname main).errors = []
    ∧ (DataModuleExtractor.extractSmartsData env (some content) mid mname main).tables = []
    ∧ (DataModuleExtractor.extractSmartsData env (some content) mid mname main).columns = [] := by
  unfold DataModuleExtractor.extractSmartsData
  by_cases he : pyStrip content = ""
  · simp [he]
  · simp [he, h]

/-- A concrete environment for the C8 counterexample, consistent with the
real collaborators on the chosen input: `json.loads` fails on the
non-JSON text, base64/gzip decoding fails on it, no timestamps parse. -/
def c8Env : Env :=
  { jsonParse := fun _ => none,
    b64decode := fun _ => none,
    gunzip := fun _ => none,
    isoValid := fun _ => false,
    visIdToType := fun _ => "Unknown" }

/-- Counterexample to C8 as stated: a short non-JSON, non-base64-like
blob fails the re-attempted JSON parse and the extractor returns the
empty result with an *empty* diagnostics list — no warning-level
diagnostic accompanies this decode-chain failure. -/
theorem smartsData_no_warning_c8_counterexample :
    (DataModuleExtractor.extractSmartsData c8Env
        (some "this text is not JSON") "m1" "Module" true).errors = []
    ∧ (DataModuleExtractor.extractSmartsData c8Env
        (some "this text is not JSON") "m1" "Module" true).objects = [] := by
  exact ⟨rfl, rfl⟩

/-- Witness for the amended C8 theorem at the same concrete input. -/
theorem smartsData_parse_failure_c8_witness :
    c8Env.jsonParse
      (DataModuleExtractor.decodeContent c8Env
        (pyStrip "this text is not JSON")) = none
    ∧ (DataModuleExtractor.extractSmartsData c8Env
        (some "this text is not JSON") "m1" "Module" true).relationships = [] :=
  ⟨rfl, (smartsData_parse_failure_c8 c8Env "this text is not JSON"
      "m1" "Module" true rfl).2.1⟩

/-! ## Claim C2: rich-blob vs flat-tag precedence -/

/-- The smartsData JSON text of the C2 failing input: one querySubject
`T` with one queryItem `C`. -/
def c2JsonText : String :=
  "\x7b\"querySubject\": [\x7b\"name\": \"T\", \"queryItem\": [\x7b\"name\": \"C\"\x7d]\x7d]\x7d"

/-- The parse of `c2JsonText`. -/
def c2Json : Json :=
  .obj [("querySubject",
         .arr [.obj [("name", .str "T"),
                     ("queryItem", .arr [.obj [("name", .str "C")]])]])]

/-- Environment for the C2 evaluation: `json.loads` parses exactly the
blob text of the failing input. -/
def c2Env : Env :=
  { jsonParse := fun s => if s = c2JsonText then some c2Json else none,
    b64decode := fun _ => none,
    gunzip := fun _ => none,
    isoValid := fun _ => false,
    visIdToType := fun _ => "Unknown" }

/-- The module node of the C2 failing input: the pair `(T, C)` appears
both in the rich blob (`smartsData`) and in the flat tag list
(`"T.C"`). -/
def c2Node : DataModuleExtractor.ModuleNode :=
  { id := "m1", name := "M", cognosClass := some "dataModule",
    props := some { smartsData := some c2JsonText, tags := some ["T.C"] } }

/-- C2 — evidence of the divergence: for a module where `(T, C)` appears
in both the rich blob and the flat tag list, the flat-tag version is
suppressed as specified, but the rich-blob column object is *not* emitted
either: `extract` returns only the module object itself, while the
dangling `HAS_COLUMN` edge for the never-emitted rich-blob column *is*
emitted.  The source builds the rich-blob table/column objects but only
uses them as lookup entries (the comment at lines 250-252, "smartsData
column already added", does not hold of the code). -/
theorem rich_blob_column_not_emitted_c2 :
    ((DataModuleExtractor.extract c2Env c2Node).1.filter
        (fun o => o.object_id == "m1:col:T.C")).length = 0
    ∧ (DataModuleExtractor.extract c2Env c2Node).1.map
        ExtractedObject.object_id = ["m1"]
    ∧ ((DataModuleExtractor.extract c2Env c2Node).2.1.filter
        (fun r => r.relationship_type == RelationshipType.has_column
          && r.target_id == "m1:col:T.C")).length = 1 := by
  refine ⟨by decide, by decide, by decide⟩

/-! ## Cross-reference resolution post-pass
(`src/cognos/parser.py`, `CognosParser._create_data_source_connections`,
lines 172-260). -/

namespace CognosParser

/-- The predicate of the `existing` check (lines 203-207 and 244-248):
an identical `(source, target, CONNECTS_TO)` edge. -/
def isConnBetween (s t : String) (r : Relationship) : Bool :=
  r.source_id == s && r.target_id == t
    && r.relationship_type == RelationshipType.connects_to

/-- The `existing = any(...)` check of the source. -/
def connExists (rels : List Relationship) (s t : String) : Bool :=
  rels.any (isConnBetween s t)

/-- Number of identical `(s, t, CONNECTS_TO)` edges in an edge list. -/
def countConn (rels : List Relationship) (s t : String) : Nat :=
  (rels.filter (isConnBetween s t)).length

/-- The storeID → object-id index (lines 181-190): data-source and
data-source-connection objects carrying a truthy `storeID` property,
updated (overwritten) by the index stashed in
`stats["data_sources_by_store_id"]`. -/
def buildStoreIdIndex (result : ParseResult) : List (String × String) :=
  let base := result.objects.foldl
    (fun m obj =>
      if obj.object_type == ObjectType.data_source
          || obj.object_type == ObjectType.data_source_connection then
        let store_id := (obj.properties.lookup "storeID").getD .null
        if store_id.truthy then upsert m store_id.pyStr obj.object_id else m
      else m) []
  match result.stats.lookup "data_sources_by_store_id" with
  | some (.idMap m2) => m2.foldl (fun m kv => upsert m kv.1 kv.2) base
  | _ => base

/-- One step of the first pass (lines 195-221): when a `uses` edge
targets an indexed storeID, synthesize the parallel `CONNECTS_TO` edge
unless an equivalent one already exists. -/
def pass1Step (index : List (String × String))
    (res : ParseResult) (rel : Relationship) : ParseResult :=
  match index.lookup rel.target_id with
  | none => res
  | some ds_obj_id =>
    if connExists res.relationships rel.source_id ds_obj_id then res
    else res.addRelationship
      { source_id := rel.source_id, target_id := ds_obj_id,
        relationship_type := .connects_to,
        properties :=
          [("connection_type",
            (rel.properties.lookup "ref_type").getD (.str "unknown")),
           ("identifier",
            (rel.properties.lookup "identifier").getD (.str "")),
           ("source", .str "useSpec")] }

/-- One step of the inner loop of the second pass (lines 240-260). -/
def pass2Inner (index : List (String × String)) (obj_id : String)
    (res : ParseResult) (use_rel : Relationship) : ParseResult :=
  match index.lookup use_rel.target_id with
  | none => res
  | some ds_id =>
    if connExists res.relationships obj_id ds_id then res
    else res.addRelationship
      { source_id := obj_id, target_id := ds_id,
        relationship_type := .connects_to,
        properties :=
          [("connection_type",
            (use_rel.properties.lookup "ref_type").getD (.str "unknown")),
           ("source", .str "post_process")] }

/-- The per-data-source body of the second pass (lines 229-260): filter
the module's `uses` edges tagged as data-source dependencies from the
current edge list, then run the guarded synthesis over them. -/
def pass2ForDs (index : List (String × String)) (obj_id : String)
    (res : ParseResult) (ds_obj : ExtractedObject) : ParseResult :=
  if ds_obj.object_type == ObjectType.data_source then
    let module_uses := res.relationships.filter (fun r =>
      r.source_id == obj_id && r.relationship_type == RelationshipType.uses
        && ((r.properties.lookup "dependency_type").getD .null).isStr
             "data_source")
    module_uses.foldl (pass2Inner index obj_id) res
  else res

/-- `_create_data_source_connections` (lines 172-260): index build, the
first pass over the snapshot of `uses` edges, then the nested
module × data-source second pass. -/
def createDataSourceConnections (result : ParseResult) : ParseResult :=
  let index := buildStoreIdIndex result
  let uses_rels := result.relationships.filter
      (fun r => r.relationship_type == RelationshipType.uses)
  let result1 := uses_rels.foldl (pass1Step index) result
  result1.objects.foldl
    (fun res obj =>
      if obj.object_type == ObjectType.data_module then
        res.objects.foldl (pass2ForDs index obj.object_id) res
      else res)
    result1

theorem connExists_false_count (rels : List Relationship) (s t : String)
    (h : connExists rels s t = false) : countConn rels s t = 0 := by
  unfold countConn
  rw [List.length_eq_zero, List.filter_eq_nil_iff]
  intro r hr
  unfold connExists at h
  rw [List.any_eq_false] at h
  simpa using h r hr

/-- A guarded synthesis step keeps the per-pair `(s, t)` connects-to
count at or below `max n0 1`. -/
theorem countConn_guard_step (s t : String) (n0 : Nat) (res : ParseResult)
    (rel : Relationship)
    (hguard : connExists res.relationships rel.source_id rel.target_id = false)
    (h : countConn res.relationships s t ≤ max n0 1) :
    countConn (res.addRelationship rel).relationships s t ≤ max n0 1 := by
  unfold ParseResult.addRelationship countConn
  simp only [List.filter_append, List.length_append]
  by_cases hp : isConnBetween s t rel = true
  · have hst : rel.source_id = s ∧ rel.target_id = t := by
      unfold isConnBetween at hp
      rw [Bool.and_eq_true, Bool.and_eq_true] at hp
      obtain ⟨⟨h1, h2⟩, -⟩ := hp
      exact ⟨by simpa using h1, by simpa using h2⟩
    have h0 : countConn res.relationships s t = 0 := by
      apply connExists_false_count
      rw [hst.1, hst.2] at hguard
      exact hguard
    unfold countConn at h0
    rw [h0]
    simp [hp]
  · have hp2 : isConnBetween s t rel = false := by
      simpa using hp
    simp only [List.filter_cons, List.filter_nil, hp2, Bool.false_eq_true,
      if_false, List.length_nil]
    simpa using h

theorem pass1Step_count (index : List (String × String)) (s t : String)
    (n0 : Nat) (res : ParseResult) (rel : Relationship)
    (h : countConn res.relationships s t ≤ max n0 1) :
    countConn (pass1Step index res rel).relationships s t ≤ max n0 1 := by
  unfold pass1Step
  cases hl : index.lookup rel.target_id with
  | none => exact h
  | some ds =>
    simp only []
    split
    · exact h
    · rename_i hg
      exact countConn_guard_step s t n0 res _ (by simpa using hg) h

theorem pass2Inner_count (index : List (String × String)) (obj_id : String)
    (s t : String) (n0 : Nat) (res : ParseResult) (use_rel : Relationship)
    (h : countConn res.relationships s t ≤ max n0 1) :
    countConn (pass2Inner index obj_id res use_rel).relationships s t
      ≤ max n0 1 := by
  unfold pass2Inner
  cases hl : index.lookup use_rel.target_id with
  | none => exact h
  | some ds =>
    simp only []
    split
    · exact h
    · rename_i hg
      exact countConn_guard_step s t n0 res _ (by simpa using hg) h

theorem pass2ForDs_count (index : List (String × String)) (obj_id : String)
    (s t : String) (n0 : Nat) (res : ParseResult) (ds_obj : ExtractedObject)
    (h : countConn res.relationships s t ≤ max n0 1) :
    countConn (pass2ForDs index obj_id res ds_obj).relationships s t
      ≤ max n0 1 := by
  unfold pass2ForDs
  split
  · exact foldl_preserve
      (fun r => countConn r.relationships s t ≤ max n0 1) _
      (fun a b ha => pass2Inner_count index obj_id s t n0 a b ha) _ _ h
  · exact h

/-- C6 — The cross-reference post-pass never produces two identical
`(source, target, connects_to)` edges: synthesis is always guarded by the
`existing` check against the current Result, so for every pair the final
count of identical connects-to edges is at most `max`imum of what was
already there and one (in particular, starting from a Result with no such
edge for the pair, at most one is ever produced). -/
theorem no_duplicate_connects_to_c6 (result : ParseResult) (s t : String) :
    countConn (createDataSourceConnections result).relationships s t
      ≤ max (countConn result.relationships s t) 1 := by
  have base : countConn result.relationships s t
      ≤ max (countConn result.relationships s t) 1 := le_max_left _ _
  have h1 := foldl_preserve
    (fun r => countConn r.relationships s t
      ≤ max (countConn result.relationships s t) 1)
    (pass1Step (buildStoreIdIndex result))
    (fun a b ha =>
      pass1Step_count (buildStoreIdIndex result) s t _ a b ha)
    (result.relationships.filter
      (fun r => r.relationship_type == RelationshipType.uses))
    result base
  unfold createDataSourceConnections
  exact foldl_preserve
    (fun r => countConn r.relationships s t
      ≤ max (countConn result.relationships s t) 1)
    (fun res obj =>
      if obj.object_type == ObjectType.data_module then
        res.objects.foldl
          (pass2ForDs (buildStoreIdIndex result) obj.object_id) res
      else res)
    (fun a b ha => by
      dsimp only
      split
      · exact foldl_preserve
          (fun r => countConn r.relationships s t
            ≤ max (countConn result.relationships s t) 1)
          (pass2ForDs (buildStoreIdIndex result) b.object_id)
          (fun a2 b2 ha2 =>
            pass2ForDs_count (buildStoreIdIndex result) b.object_id s t _ a2 b2 ha2)
          a.objects a ha
      · exact ha)
    ((result.relationships.filter
        (fun r => r.relationship_type == RelationshipType.uses)).foldl
      (pass1Step (buildStoreIdIndex result)) result).objects
    ((result.relationships.filter
        (fun r => r.relationship_type == RelationshipType.uses)).foldl
      (pass1Step (buildStoreIdIndex result)) result)
    h1

/-! ## Top-level parse and export validation
(`src/cognos/parser.py` lines 35-122). -/

/-- The export input as the parser probes it through the filesystem and
ZIP collaborators: a missing path, an extracted directory with its file
names, or a file (a readable ZIP listing its member names, or not a ZIP /
an unreadable one). -/
inductive ExportInput where
  | missing : ExportInput
  | dir (files : List String) : ExportInput
  | zipfile (isZip : Bool) (contents : Option (List String)) : ExportInput
deriving Repr, Inhabited

/-- `s.endswith(pat)`. -/
def pyEndsWith (s pat : String) : Bool :=
  listStartsWith s.toList.reverse pat.toList.reverse

/-- A name matching `package*.xml` (equivalently `startswith("package")
and endswith(".xml")`, as the ZIP branch writes it; the glob of the
directory branch denotes the same set of names). -/
def isPackageXml (name : String) : Bool :=
  pyStartsWith name "package" && pyEndsWith name ".xml"

/-- `CognosParser.validate_export` (lines 35-93). -/
def validateExport : ExportInput → Bool
  | .missing => false
  | .dir files =>
    if !(files.contains "content.xml") then false
    else !(files.filter isPackageXml).isEmpty
  | .zipfile isZip contents =>
    if !isZip then false
    else
      match contents with
      | none => false
      | some cs =>
        if !(cs.contains "content.xml") then false
        else cs.any isPackageXml

/-- `CognosParser.parse` (lines 95-170), with the extraction pipeline
(manifest, packages, data sources, post-pass, statistics — lines
124-146) abstracted as a function of the validated input: `.ok` is a
completed pipeline, `.error` models an exception escaping it with the
Result state at the raise point (the `except` branch appends the
critical "Fatal error" diagnostic to that state). -/
def parse
    (pipeline : ExportInput → ParseResult → Except (ParseResult × String) ParseResult)
    (input : ExportInput) (fileName : String) : ParseResult :=
  let result : ParseResult := {}
  if validateExport input then
    match pipeline input result with
    | .ok r => r
    | .error (r, msg) =>
      r.addError { level := .critical,
                   message := "Fatal error during parsing: " ++ msg,
                   file_name := some fileName }
  else
    result.addError { level := .critical,
                      message := "Invalid Cognos export file: " ++ fileName,
                      file_name := some fileName }

/-- The export exists but its top-level manifest `content.xml` is absent:
a directory without it, or a readable ZIP whose listing lacks it. -/
def manifestMissing : ExportInput → Prop
  | .missing => False
  | .dir files => "content.xml" ∉ files
  | .zipfile isZip contents =>
    isZip = true ∧ ∃ cs, contents = some cs ∧ "content.xml" ∉ cs

/-- C9 — For every export input missing its manifest document
(`content.xml`), `parse` returns (it never raises; the embedding is a
total function) a Result with zero objects and exactly one diagnostic,
of critical severity, regardless of what the extraction pipeline would
do. -/
theorem missing_manifest_c9
    (pipeline : ExportInput → ParseResult → Except (ParseResult × String) ParseResult)
    (input : ExportInput) (fileName : String)
    (h : manifestMissing input) :
    (parse pipeline input fileName).objects = []
    ∧ (parse pipeline input fileName).errors.length = 1
    ∧ ∀ e ∈ (parse pipeline input fileName).errors,
        e.level = ParseErrorLevel.critical := by
  have hv : validateExport input = false := by
    cases input with
    | missing => rfl
    | dir files =>
      simp only [manifestMissing] at h
      have hc : files.contains "content.xml" = false := by simpa using h
      simp [validateExport, hc]
      intro hmem2
      exact absurd hmem2 h
    | zipfile isZip contents =>
      simp only [manifestMissing] at h
      obtain ⟨hz, cs, hcs, hmem⟩ := h
      subst hz
      subst hcs
      have hc : cs.contains "content.xml" = false := by simpa using hmem
      simp [validateExport, hc]
      intro hmem2
      exact absurd hmem2 hmem
  unfold parse
  rw [hv]
  simp [ParseResult.addError]

/-- Witness for C9: a directory export holding only a package file. -/
theorem missing_manifest_c9_witness :
    (parse (fun _ r => .ok r) (.dir ["package1.xml"]) "export.zip").objects = []
    ∧ (parse (fun _ r => .ok r) (.dir ["package1.xml"]) "export.zip").errors.length = 1
    ∧ ∀ e ∈ (parse (fun _ r => .ok r) (.dir ["package1.xml"]) "export.zip").errors,
        e.level = ParseErrorLevel.critical :=
  missing_manifest_c9 (fun _ r => .ok r) (.dir ["package1.xml"]) "export.zip"
    (by simp [manifestMissing])

end CognosParser

/-! ## Dashboard extraction
(`src/cognos/extractors/dashboard_extractor.py`).  The embedded JSON
specification is represented post-`json.loads` as `Option Json` (`none`
models a `JSONDecodeError`); the three spec passes (tabs,
visualizations, filters) each parse the same text in the source and are
fed the same parse result here. -/

/-- Replace the first element satisfying `p` (the `for ... break` update
of the dashboard display-names block). -/
def updateFirst {α : Type} (p : α → Bool) (f : α → α) : List α → List α
  | [] => []
  | x :: xs => if p x then f x :: xs else x :: updateFirst p f xs

mutual

/-- A computable size of a JSON value (node count), used as recursion
fuel for the walks that descend through looked-up fields; it strictly
bounds the nesting depth of the finite tree. -/
def jsonSize : Json → Nat
  | .null => 1
  | .bool _ => 1
  | .num _ => 1
  | .str _ => 1
  | .arr xs => 1 + jsonSizeList xs
  | .obj fs => 1 + jsonSizeFields fs

def jsonSizeList : List Json → Nat
  | [] => 0
  | x :: xs => jsonSize x + jsonSizeList xs

def jsonSizeFields : List (String × Json) → Nat
  | [] => 0
  | kv :: xs => jsonSize kv.2 + jsonSizeFields xs

end

namespace DashboardExtractor

/-- The recursive widget-id walk over nested `items` trees
(`extract_widget_ids_from_items`, lines 373-392 and 917-938: both copies
collect ids of `type == "widget"` items in the same order; the
visualization pass then maps them to the tab).  The fuel is the `sizeOf`
of the JSON value, which strictly bounds the recursion depth of the
finite tree. -/
def widgetIdsFromItems : Nat → Json → List Json
  | 0, _ => []
  | fuel + 1, .arr xs =>
    xs.foldl (fun acc item =>
      match item with
      | .obj _ =>
        let ids :=
          if (item.getD "type" .null).isStr "widget" then
            (let wid := item.getD "id" .null
             if wid.truthy then [wid] else [])
          else []
        let sub :=
          match item.get "items" with
          | some s => widgetIdsFromItems fuel s
          | none => []
        acc ++ ids ++ sub
      | _ => acc) []
  | fuel + 1, .obj fs =>
    let item : Json := .obj fs
    let ids :=
      if (item.getD "type" .null).isStr "widget" then
        (let wid := item.getD "id" .null
         if wid.truthy then [wid] else [])
      else []
    let sub :=
      match item.get "items" with
      | some s => widgetIdsFromItems fuel s
      | none => []
    ids ++ sub
  | _ + 1, _ => []

/-- The tab-shape resolution block, written identically at lines 839-869
(`_extract_tabs`) and 349-371 (`_extract_visualizations`): `layout.tabs`,
else the first present of `tabPages`/`pages`/`sections`, else the
container-typed titled items of `layout.items`; a dict result is wrapped
in a list, a non-list result means no tabs. -/
def resolveTabsData (layout : Json) : Option (List Json) :=
  let tabs0 := layout.getD "tabs" (.arr [])
  let tabs1 :=
    if !tabs0.truthy && (layout.asObj?).isSome then
      let alt :=
        match layout.get "tabPages" with
        | some v => v
        | none =>
          match layout.get "pages" with
          | some v => v
          | none =>
            match layout.get "sections" with
            | some v => v
            | none => tabs0
      if !alt.truthy && (layout.get "items").isSome then
        match (layout.getD "items" (.arr [])).asList? with
        | some xs =>
          let container_items := xs.filter (fun item =>
            (item.asObj?).isSome
              && (item.getD "type" .null).isStr "container"
              && ((item.get "title").isSome
                  || (item.getD "name" .null).truthy))
          if !container_items.isEmpty then .arr container_items else alt
        | none => alt
      else alt
    else tabs0
  match tabs1 with
  | .obj fs => some [.obj fs]
  | .arr xs => some xs
  | _ => none

/-- Tab display-name resolution (lines 882-895): a string name, or a
`translationTable` (Default / en-us / en / first translation), with the
`Tab <n>` fallback for missing or `\x7b\x7d` names. -/
def resolveTabName (tab_data : Json) (tab_idx : Nat) : String :=
  let tab_name_data := (tab_data.getD "name" .null).orElse
      (tab_data.getD "title" (.obj []))
  let tab_name : Json :=
    match tab_name_data with
    | .obj _ =>
      let trans := tab_name_data.getD "translationTable" (.obj [])
      let n := (trans.getD "Default" .null).orElse
          ((trans.getD "en-us" .null).orElse (trans.getD "en" .null))
      if n.truthy then n
      else
        (match trans with
         | .obj ((_, v) :: _) => v
         | _ => .null)
    | .str s => .str s
    | _ => .null
  if !tab_name.truthy || tab_name.isStr "\x7b\x7d" then
    "Tab " ++ toString (tab_idx + 1)
  else tab_name.pyStr

/-- The widget references of one tab (lines 900-944): the `widgets`
list or dict keys, the `layout.widgets` list, and the recursive walk of
the nested `items` tree. -/
def tabWidgetRefs (tab_data : Json) : List Json :=
  let refs :=
    match tab_data.getD "widgets" (.arr []) with
    | .arr xs => xs
    | .obj fs => fs.map (fun kv => Json.str kv.1)
    | _ => []
  let lw := (tab_data.getD "layout" (.obj [])).getD "widgets" (.arr [])
  let refs :=
    if lw.truthy then
      refs ++ (match lw with
               | .arr xs => xs
               | .obj fs => fs.map (fun kv => Json.str kv.1)
               | _ => [])
    else refs
  let tab_items := tab_data.getD "items" (.arr [])
  if tab_items.truthy then
    refs ++ widgetIdsFromItems (jsonSize tab_items) tab_items
  else refs

/-- `_extract_tabs` (lines 801-1005): one tab object и a
`dashboard → tab` CONTAINS edge per resolved tab, plus a `tab → widget`
CONTAINS edge per widget reference.  A non-dict tab entry takes the
per-tab exception path (a warning, tab skipped). -/
def extractTabs (specOpt : Option Json) (dashboard_id dashboard_name : String) :
    List ExtractedObject × List Relationship × List ParseError :=
  match specOpt with
  | none =>
    ([], [], [{ level := .warning,
                message := "Failed to parse dashboard JSON for tabs" }])
  | some spec =>
    let layout := spec.getD "layout" (.obj [])
    match resolveTabsData layout with
    | none => ([], [], [])
    | some tabs_data =>
      let out := tabs_data.foldl
        (fun (st : Nat × List ExtractedObject × List Relationship × List ParseError)
             tab_data =>
          let tab_idx := st.1
          match tab_data.asObj? with
          | none =>
            let err : ParseError :=
              { level := .warning,
                message := "Failed to extract tab " ++ toString tab_idx }
            (tab_idx + 1, st.2.1, st.2.2.1, st.2.2.2 ++ [err])
          | some _ =>
            let tab_id_raw := (tab_data.getD "id" .null).orElse
                ((tab_data.getD "identifier" .null).orElse
                 (.str (toString tab_idx)))
            let tab_name := resolveTabName tab_data tab_idx
            let tab_id := dashboard_id ++ ":tab:" ++ tab_id_raw.pyStr
            let widget_refs := tabWidgetRefs tab_data
            let tab_obj : ExtractedObject :=
              { object_id := tab_id, object_type := .tab, name := tab_name,
                parent_id := some dashboard_id,
                properties := [("cognosClass", .str "tab"),
                               ("original_id", tab_id_raw),
                               ("widget_count", .num widget_refs.length),
                               ("widget_refs", .arr (widget_refs.take 10))],
                bi_tool := "cognos" }
            let dashRel : Relationship :=
              { source_id := dashboard_id, target_id := tab_id,
                relationship_type := .contains,
                properties := [("containment_type", .str "dashboard_tab"),
                               ("tab_index", .num tab_idx)] }
            let vizRels := widget_refs.map (fun wr =>
              { source_id := tab_id,
                target_id := dashboard_id ++ ":widget:" ++ wr.pyStr,
                relationship_type := .contains,
                properties := [("containment_type", .str "tab_visualization"),
                               ("widget_ref", .str wr.pyStr)] })
            (tab_idx + 1, st.2.1 ++ [tab_obj],
             st.2.2.1 ++ [dashRel] ++ vizRels, st.2.2.2))
        (0, [], [], [])
      (out.2.1, out.2.2.1, out.2.2.2)

/-- The widget-to-tab map of `_extract_visualizations` (lines 346-418):
the same tab shapes and id sources, folded into one dict. -/
def buildWidgetToTab (spec : Json) (dashboard_id : String) :
    List (String × String) :=
  let layout := spec.getD "layout" (.obj [])
  match resolveTabsData layout with
  | none => []
  | some tabs_data =>
    tabs_data.foldl (fun m tab_data =>
      match tab_data.asObj? with
      | none => m
      | some _ =>
        let tab_id_raw := (tab_data.getD "id" .null).orElse
            (tab_data.getD "identifier" (.str ""))
        if tab_id_raw.truthy then
          let tab_id := dashboard_id ++ ":tab:" ++ tab_id_raw.pyStr
          let m :=
            match tab_data.getD "widgets" (.arr []) with
            | .arr xs => xs.foldl (fun m w => upsert m w.pyStr tab_id) m
            | .obj fs => fs.foldl (fun m kv => upsert m kv.1 tab_id) m
            | _ => m
          let m :=
            match tab_data.getD "layout" (.obj []) with
            | .obj lfs =>
              let lw := (Json.obj lfs).getD "widgets" (.arr [])
              if lw.truthy then
                match lw with
                | .arr xs => xs.foldl (fun m w => upsert m w.pyStr tab_id) m
                | .obj fs => fs.foldl (fun m kv => upsert m kv.1 tab_id) m
                | _ => m
              else m
            | _ => m
          let tab_items := tab_data.getD "items" (.arr [])
          if tab_items.truthy then
            (widgetIdsFromItems (jsonSize tab_items) tab_items).foldl
              (fun m w => upsert m w.pyStr tab_id) m
          else m
        else m) []

/-- `_column_ref` of `_extract_widget_sorts` (lines 626-634). -/
def sortColumnRef (item : Json) : Option String :=
  match item with
  | .str s => if (pyStrip s) ≠ "" then some (pyStrip s) else none
  | .obj _ =>
    let v := (item.getD "dataItemId" .null).orElse
      ((item.getD "itemId" .null).orElse
       ((item.getD "refDataItem" .null).orElse
        ((item.getD "dataItem" .null).orElse (item.getD "column" .null))))
    if v.truthy then some v.pyStr else none
  | _ => none

/-- `_direction` of `_extract_widget_sorts` (lines 636-648). -/
def sortDirection (item : Json) : String :=
  match item.asObj? with
  | some _ =>
    let d := (item.getD "direction" .null).orElse
      ((item.getD "sortOrder" .null).orElse
       ((item.getD "order" .null).orElse (.str "")))
    match d with
    | .str s =>
      let s := pyLower (pyStrip s)
      if s = "asc" || s = "ascending" then "ascending"
      else if s = "desc" || s = "descending" then "descending"
      else "ascending"
    | _ => "ascending"
  | none => "ascending"

/-- `_collect` of `_extract_widget_sorts` (lines 650-663): nested lists
are walked, dicts and non-empty strings yield one `(column, direction)`
entry. -/
def collectSortItems : Nat → Json → List (String × String)
  | _, .null => []
  | 0, _ => []
  | fuel + 1, .arr xs => xs.foldl (fun acc v => acc ++ collectSortItems fuel v) []
  | _ + 1, .obj fs =>
    (match sortColumnRef (.obj fs) with
     | some c => [(c, sortDirection (.obj fs))]
     | none => [])
  | _ + 1, .str s =>
    if (pyStrip s) ≠ "" then [(pyStrip s, "ascending")] else []
  | _ + 1, _ => []

/-- The candidate sort keys (lines 666, 672, 680). -/
def sortKeys : List String := ["sort", "sortBy", "defaultSort", "sortItems"]

/-- `_extract_widget_sorts` (lines 603-720): collect candidate sort
items from the widget level, the data level and each data view, dedupe
by `(column.lower(), direction)` and emit Sort objects with
positional ids. -/
def extractWidgetSorts (widget_data : Json) (viz_obj_id : String) :
    List ExtractedObject × List Relationship :=
  let raw1 := sortKeys.foldl (fun acc key =>
      acc ++ collectSortItems (jsonSize (widget_data.getD key .null))
        (widget_data.getD key .null)) []
  let data := (widget_data.getD "data" .null).orElse (.obj [])
  let raw2 :=
    match data.asObj? with
    | some _ => sortKeys.foldl (fun acc key =>
        acc ++ collectSortItems (jsonSize (data.getD key .null))
          (data.getD key .null)) raw1
    | none => raw1
  let data_views :=
    match data.asObj? with
    | some _ => data.getD "dataViews" (.arr [])
    | none => .arr []
  let raw3 :=
    match data_views.asList? with
    | some dvs => dvs.foldl (fun acc (dv : Json) =>
        match dv.asObj? with
        | some _ => sortKeys.foldl (fun acc key =>
            acc ++ collectSortItems (jsonSize (dv.getD key .null))
              (dv.getD key .null)) acc
        | none => acc) raw2
    | none => raw2
  let out := raw3.foldl
    (fun (st : List (String × String) × Nat × List ExtractedObject × List Relationship)
         item =>
      let key := (pyLower item.1, item.2)
      if st.1.contains key then st
      else
        let sort_id := viz_obj_id ++ ":sort:" ++ toString st.2.1
        let sort_name := "Sort: " ++ item.1 ++ " (" ++ item.2 ++ ")"
        let sort_obj : ExtractedObject :=
          { object_id := sort_id, object_type := .sort, name := sort_name,
            parent_id := some viz_obj_id,
            properties := [("direction", .str item.2),
                           ("sorted_column", .str item.1),
                           ("refDataItem", .str item.1),
                           ("sort_items",
                            .arr [.obj [("column", .str item.1),
                                        ("direction", .str item.2)]]),
                           ("cognosClass", .str "sort"),
                           ("source", .str "dashboard_widget")],
            bi_tool := "cognos" }
        (key :: st.1, st.2.1 + 1, st.2.2.1 ++ [sort_obj],
         st.2.2.2 ++ [{ source_id := viz_obj_id, target_id := sort_id,
                        relationship_type := .contains,
                        properties := [("containment_type",
                                        .str "widget_sort")] }]))
    ([], 0, [], [])
  (out.2.2.1, out.2.2.2)

/-- `_process_widget` (lines 450-601): skip non-data widgets, resolve
the display name, collect data items and data-view references, parent
the visualization to its tab when mapped (with the extra via-tab edge
from the dashboard), and add `USES` edges to the referenced data
sources. -/
def processWidget (env : Env) (widget_id : String) (widget_data : Json)
    (dashboard_id : String) (data_sources : List (String × Json))
    (widget_to_tab : List (String × String)) :
    Option ExtractedObject × List Relationship :=
  let vis_id := widget_data.getD "visId" (.str "")
  let widget_type := widget_data.getD "type" (.str "")
  if !(widget_type.isStr "live" || widget_type.isStr "local"
       || widget_type.isStr "datadriven") && !vis_id.truthy then
    (none, [])
  else
    let viz_type := env.visIdToType vis_id.pyStr
    let name_data := widget_data.getD "name" (.obj [])
    let widget_name0 : Json :=
      match name_data with
      | .obj _ =>
        let trans := name_data.getD "translationTable" (.obj [])
        (match trans.get "Default" with
         | some v => v
         | none =>
           match trans.get "en-us" with
           | some v => v
           | none => .str (viz_type ++ " Widget"))
      | .str s => .str s
      | _ => .str (viz_type ++ " Widget")
    let widget_name :=
      if !widget_name0.truthy || widget_name0.isStr "\x7b\x7d" then
        viz_type ++ " Widget"
      else widget_name0.pyStr
    let viz_obj_id := dashboard_id ++ ":widget:" ++ widget_id
    let slot_mapping := widget_data.getD "slotmapping" (.obj [])
    let slots := (slot_mapping.getD "slots" (.arr [])).asList?.getD []
    let data_items1 : List Json := slots.foldl (fun acc slot =>
      match slot.asObj? with
      | some _ =>
        let slot_name := slot.getD "name" (.str "")
        acc ++ ((slot.getD "dataItems" (.arr [])).asList?.getD []).map
          (fun di => .obj [("slot", slot_name), ("dataItemId", di)])
      | none => acc) []
    let data_views :=
      ((widget_data.getD "data" (.obj [])).getD "dataViews"
        (.arr [])).asList?.getD []
    let dvAcc := data_views.foldl
      (fun (acc : List Json × List Json) dv =>
        match dv.asObj? with
        | some _ =>
          let model_ref := dv.getD "modelRef" .null
          let refs := if model_ref.truthy then acc.1 ++ [model_ref] else acc.1
          let items := acc.2 ++
            (((dv.getD "dataItems" (.arr [])).asList?.getD []).filterMap
              (fun item =>
                let item_id := item.getD "itemId" (.str "")
                if item_id.truthy then
                  some (.obj [("itemId", item_id),
                              ("itemLabel", item.getD "itemLabel" (.str "")),
                              ("modelRef", model_ref)])
                else none))
          (refs, items)
        | none => acc) ([], [])
    let properties : List (String × Json) :=
      [("cognosClass", .str "widget"),
       ("visualization_type", .str viz_type),
       ("visId", vis_id),
       ("widget_type", widget_type),
       ("data_items", .arr (data_items1 ++ dvAcc.2))]
    let parent_id :=
      if !widget_to_tab.isEmpty then
        match widget_to_tab.lookup widget_id with
        | some t => t
        | none => dashboard_id
      else dashboard_id
    let viz_obj : ExtractedObject :=
      { object_id := viz_obj_id, object_type := .visualization,
        name := widget_name, parent_id := some parent_id,
        properties := properties, bi_tool := "cognos" }
    let rel_contains : Relationship :=
      { source_id := parent_id, target_id := viz_obj_id,
        relationship_type := .contains,
        properties := [("containment_type",
          .str (if parent_id ≠ dashboard_id then "tab_visualization"
                else "dashboard_visualization"))] }
    let viaTab : List Relationship :=
      if parent_id ≠ dashboard_id then
        [{ source_id := dashboard_id, target_id := viz_obj_id,
           relationship_type := .contains,
           properties := [("containment_type", .str "dashboard_visualization"),
                          ("via_tab", .bool true)] }]
      else []
    let uses := dvAcc.1.foldl (fun acc model_ref =>
      match data_sources.lookup model_ref.pyStr with
      | some ds_info =>
        let asset_id := ds_info.getD "assetId" .null
        if asset_id.truthy then
          acc ++ [{ source_id := viz_obj_id, target_id := asset_id.pyStr,
                    relationship_type := .uses,
                    properties := [("dependency_type", .str "data_source"),
                                   ("data_source_name",
                                    ds_info.getD "name" .null),
                                   ("data_source_type",
                                    ds_info.getD "type" .null)] }]
        else acc
      | none => acc) []
    (some viz_obj, [rel_contains] ++ viaTab ++ uses)

/-- The `useSpec` loop over one data source's moserJSON (lines 267-284):
emit one `USES` edge for the first truthy `storeID` and stop; the final
value of the loop variable decides the assetId fallback (`None` exactly
when no entry carried a `storeID` key, JSON `null` included). -/
def dashUseSpecLoop (dashboard_id : String) :
    List Json → Option Json × List Relationship
  | [] => (none, [])
  | us :: rest =>
    let refv : Option Json :=
      match us.get "storeID" with
      | some Json.null => none
      | o => o
    match refv with
    | some v =>
      if v.truthy then
        (some v,
         [{ source_id := dashboard_id, target_id := v.pyStr,
            relationship_type := .uses,
            properties := [("dependency_type", .str "data_source"),
                           ("ref_type", us.getD "type" (.str "module")),
                           ("identifier", us.getD "identifier" (.str ""))] }])
      else if rest.isEmpty then (some v, [])
      else dashUseSpecLoop dashboard_id rest
    | none =>
      if rest.isEmpty then (none, [])
      else dashUseSpecLoop dashboard_id rest

/-- Dashboard-side usage normalization of embedded calculations (lines
313-318); unlike the data-module one there is no map lookup of the
stringified code. -/
def dashNormalizeUsage (usage : PyVal) : String :=
  if pyEq usage (.str "fact") || pyEq usage (.str "measure")
      || pyEq usage (.int 2) then "measure"
  else if pyEq usage (.str "attribute") || pyEq usage (.str "dimension")
      || pyEq usage (.int 0) || pyEq usage (.int 1) then
    (if pyEq usage (.int 1) || pyEq usage (.str "dimension")
     then "dimension" else "attribute")
  else "unknown"

/-- One embedded calculation of a dashboard data source (lines 304-344):
skipped when the expression is only a simple `[M].[T].[C]` reference;
no dedup set here. -/
def dashCalcStep (dashboard_id : String)
    (acc : List ExtractedObject × List Relationship) (calcJ : Json) :
    List ExtractedObject × List Relationship :=
  match calcJ.asObj? with
  | none => acc
  | some _ =>
    let calc_identifier := calcJ.getD "identifier" (.str "unknown")
    let calc_id := dashboard_id ++ ":emb_calc:" ++ calc_identifier.pyStr
    let calc_name := (calcJ.getD "label" calc_identifier).pyStr
    let expression := calcJ.getD "expression" (.str "")
    let is_simple :=
      match expression with
      | .str s => expressionIsSimpleColumnReference (some s)
      | _ => false
    if is_simple then acc
    else
      let usage := calcJ.getD "usage" (.str "")
      let data_usage := dashNormalizeUsage usage.toPyVal
      let calc_obj : ExtractedObject :=
        { object_id := calc_id, object_type := .calculated_field,
          name := calc_name, parent_id := some dashboard_id,
          properties := [("expression", expression),
                         ("usage", usage),
                         ("data_usage", .str data_usage),
                         ("datatype", calcJ.getD "datatype" (.str "")),
                         ("aggregate", calcJ.getD "regularAggregate" (.str "")),
                         ("cognosClass", .str "embeddedCalculation"),
                         ("source", .str "moserJSON")],
          bi_tool := "cognos" }
      (acc.1 ++ [calc_obj],
       acc.2 ++ [{ source_id := dashboard_id, target_id := calc_id,
                   relationship_type := .contains }])

/-- One entry of `dataSources.sources` (lines 252-344): register the
source under its id, emit the dashboard→module `USES` edge from
`useSpec` (or the assetId fallback), and extract the embedded
calculations. -/
def dsSourceStep (dashboard_id : String)
    (acc : List (String × Json) × List ExtractedObject × List Relationship)
    (ds : Json) :
    List (String × Json) × List ExtractedObject × List Relationship :=
  match ds.asObj? with
  | none => acc
  | some _ =>
    let ds_id := ds.getD "id" .null
    if ds_id.truthy then
      let shaping := ds.getD "shaping" (.obj [])
      let info : Json := .obj [("assetId", ds.getD "assetId" .null),
                               ("name", ds.getD "name" .null),
                               ("type", ds.getD "type" .null),
                               ("shaping", shaping)]
      let data_sources := upsert acc.1 ds_id.pyStr info
      let moser_json := shaping.getD "moserJSON" (.obj [])
      let us :=
        if moser_json.truthy then
          dashUseSpecLoop dashboard_id
            ((moser_json.getD "useSpec" (.arr [])).asList?.getD [])
        else (none, [])
      let fallbackRels : List Relationship :=
        if us.1.isNone && (ds.getD "type" .null).isStr "module" then
          let asset_id := ds.getD "assetId" .null
          if asset_id.truthy then
            [{ source_id := dashboard_id, target_id := asset_id.pyStr,
               relationship_type := .uses,
               properties := [("dependency_type", .str "data_source"),
                              ("ref_type", .str "module"),
                              ("identifier", .str "")] }]
          else []
        else []
      let calcOut :=
        if moser_json.truthy then
          ((moser_json.getD "calculation" (.arr [])).asList?.getD []).foldl
            (dashCalcStep dashboard_id) ([], [])
        else ([], [])
      (data_sources, acc.2.1 ++ calcOut.1,
       acc.2.2 ++ us.2 ++ fallbackRels ++ calcOut.2)
    else acc

/-- `_extract_visualizations` (lines 212-448): the data-source pass
(with embedded calculations), the widget-to-tab map, and the widget
loop with per-widget sorts. -/
def extractVisualizations (env : Env) (specOpt : Option Json)
    (dashboard_id dashboard_name : String) :
    List ExtractedObject × List Relationship × List ParseError :=
  match specOpt with
  | none =>
    ([], [], [{ level := .warning,
                message := "Failed to parse dashboard JSON" }])
  | some spec =>
    let widgets := spec.getD "widgets" (.obj [])
    let dsOut := (((spec.getD "dataSources" (.obj [])).getD "sources"
        (.arr [])).asList?.getD []).foldl (dsSourceStep dashboard_id)
      ([], [], [])
    let widget_to_tab := buildWidgetToTab spec dashboard_id
    let wOut := (widgets.asObj?.getD []).foldl
      (fun (acc : List ExtractedObject × List Relationship) kv =>
        let pw := processWidget env kv.1 kv.2 dashboard_id dsOut.1 widget_to_tab
        match pw.1 with
        | some viz =>
          let sorts := extractWidgetSorts kv.2 viz.object_id
          (acc.1 ++ [viz] ++ sorts.1, acc.2 ++ pw.2 ++ sorts.2)
        | none => acc) ([], [])
    (dsOut.2.1 ++ wOut.1, dsOut.2.2 ++ wOut.2, [])

/-- Truncation of a large `tupleSet` (line 782). -/
def truncate2000 (s : String) : String :=
  if s.toList.length ≤ 2000 then s
  else String.mk (s.toList.take 2000) ++ "…"

/-- `_extract_dashboard_filters` (lines 722-799): one Filter object and
one `FILTERS_BY` edge per `pageContext` entry whose origin is
`"filter"`. -/
def extractDashboardFilters (specOpt : Option Json)
    (dashboard_id dashboard_name : String) :
    List ExtractedObject × List Relationship × List ParseError :=
  match specOpt with
  | none =>
    ([], [], [{ level := .warning,
                message := "Failed to parse dashboard JSON for filters" }])
  | some spec =>
    match (spec.getD "pageContext" .null).asList? with
    | none => ([], [], [])
    | some ctxs =>
      let out := ctxs.foldl
        (fun (st : Nat × List ExtractedObject × List Relationship) ctx =>
          match ctx.asObj? with
          | none => st
          | some _ =>
            if !(ctx.getD "origin" .null).isStr "filter" then st
            else
              let idx := st.1 + 1
              let filter_id := dashboard_id ++ ":pageContext_filter:"
                  ++ toString idx
              let hierarchy_names := (ctx.getD "hierarchyNames" .null).orElse
                  (.arr [])
              let scope := (ctx.getD "scope" .null).orElse (.str "")
              let name_parts : List Json :=
                if hierarchy_names.truthy then
                  (hierarchy_names.asList?.getD []).take 3
                else [.str ("Filter_" ++ toString idx)]
              let filter_name :=
                if name_parts.isEmpty then "Filter_" ++ toString idx
                else String.intercalate ", " (name_parts.map Json.pyStr)
              let props : List (String × Json) :=
                [("filter_scope", .str "dashboard_pageContext"),
                 ("scope", scope),
                 ("hierarchyNames", hierarchy_names),
                 ("hierarchyUniqueNames",
                  (ctx.getD "hierarchyUniqueNames" .null).orElse (.arr [])),
                 ("sourceId", ctx.getD "sourceId" .null),
                 ("exclude", ctx.getD "exclude" (.bool false)),
                 ("isNamedSet", ctx.getD "isNamedSet" (.bool false)),
                 ("parent_id", .str dashboard_id),
                 ("cognosClass", .str "filter")]
                ++ (match ctx.get "conditions" with
                    | some Json.null => []
                    | some c => [("conditions", c)]
                    | none => [])
                ++ (match ctx.get "tupleSet" with
                    | some Json.null => []
                    | some (Json.str s) => [("tupleSet", .str (truncate2000 s))]
                    | some t => [("tupleSet", .str (truncate2000 t.pyStr))]
                    | none => [])
              let filter_obj : ExtractedObject :=
                { object_id := filter_id, object_type := .filter,
                  name := filter_name, parent_id := some dashboard_id,
                  properties := props, bi_tool := "cognos" }
              (idx, st.2.1 ++ [filter_obj],
               st.2.2 ++ [{ source_id := dashboard_id, target_id := filter_id,
                            relationship_type := .filters_by }]))
        (0, [], [])
      (out.2.1, out.2.2, [])

/-- The property paths the dashboard extractor reads from the XML node. -/
structure DashboardProps where
  creationTime : Option String := none
  modificationTime : Option String := none
  owner : Option String := none
  hidden : Option String := none
  specification : Option String := none
deriving Repr, Inhabited

/-- A raw dashboard XML object node, reduced to the fields the extractor
reads. -/
structure DashboardNode where
  id : String
  name : String := "<unnamed>"
  parentId : Option String := none
  storeID : Option String := none
  cognosClass : Option String := none
  props : Option DashboardProps := none
deriving Repr, Inhabited

set_option maxHeartbeats 1000000 in
/-- `DashboardExtractor.extract` (lines 41-210): dashboard identity and
properties, the parent edge, then — when a specification blob is present
— the tab, visualization and filter passes over its JSON, and the
display-name stash on the dashboard object. -/
def extract (env : Env) (node : DashboardNode) :
    List ExtractedObject × List Relationship × List ParseError :=
  let obj_id := node.id
  let name := node.name
  let pOpt := node.props
  let created_at :=
    pOpt.bind (fun p => p.creationTime.bind (fun t =>
      if env.isoValid t then some t else none))
  let modified_at :=
    pOpt.bind (fun p => p.modificationTime.bind (fun t =>
      if env.isoValid t then some t else none))
  let owner := pOpt.bind (fun p => p.owner)
  let properties : List (String × Json) :=
    [("storeID", match node.storeID with | some s => .str s | none => .null),
     ("cognosClass",
      match node.cognosClass with | some s => .str s | none => .null)]
    ++ (match created_at with
        | some t => [("creationTime", Json.str t)] | none => [])
    ++ (match modified_at with
        | some t => [("modificationTime", Json.str t)] | none => [])
    ++ (match owner with
        | some o => if o ≠ "" then [("owner", Json.str o)] else []
        | none => [])
    ++ (match pOpt.bind (fun p => p.hidden) with
        | some h => if h ≠ "" then [("hidden", Json.bool (pyLower h = "true"))]
                    else []
        | none => [])
  let specification_json : Option String :=
    pOpt.bind (fun p => p.specification.bind (fun s =>
      let s := pyStrip s
      if s = "" then none else some s))
  let dashboard : ExtractedObject :=
    { object_id := obj_id, object_type := .dashboard, name := name,
      parent_id := node.parentId, properties := properties,
      created_at := created_at, modified_at := modified_at, owner := owner,
      bi_tool := "cognos" }
  let parentRels : List Relationship :=
    match node.parentId with
    | some p =>
      if p ≠ "" then
        [{ source_id := p, target_id := obj_id,
           relationship_type := .parent_child }]
      else []
    | none => []
  match specification_json with
  | none => ([dashboard], parentRels, [])
  | some sj =>
    let parsed := env.jsonParse sj
    let tabs := extractTabs parsed obj_id name
    let viz := extractVisualizations env parsed obj_id name
    let filters := extractDashboardFilters parsed obj_id name
    let objects0 := [dashboard] ++ tabs.1 ++ viz.1 ++ filters.1
    let objects1 :=
      match parsed with
      | some spec =>
        let sources := ((spec.getD "dataSources" (.obj [])).getD "sources"
            (.arr [])).asList?.getD []
        let names := sources.foldl (fun m ds =>
            match ds.asObj? with
            | none => m
            | some _ =>
              if !(ds.getD "type" .null).isStr "module" then m
              else
                let key := (ds.getD "assetId" .null).orElse (ds.getD "id" .null)
                if key.truthy then
                  upsert m (pyStrip key.pyStr)
                    (pyStrip (((ds.getD "name" .null).orElse
                      (ds.getD "label" .null)).orElse (.str "")).pyStr)
                else m) []
        if !names.isEmpty then
          updateFirst (fun o => o.object_id == obj_id)
            (fun o => { o with properties := o.properties ++
                [("data_module_display_names",
                  .obj (names.map (fun kv => (kv.1, Json.str kv.2))))] })
            objects0
        else objects0
      | none => objects0
    (objects1,
     parentRels ++ tabs.2.1 ++ viz.2.1 ++ filters.2.1,
     tabs.2.2 ++ viz.2.2 ++ filters.2.2)

end DashboardExtractor

/-! ## Claim C5: the tab/widget containment scenario -/

/-- The dashboard specification text of the C5 scenario: one tab `t1`
holding the two widget ids `w1`, `w2`, and one widget `w3` defined in
the `widgets` dictionary outside any tab. -/
def c5SpecText : String :=
  "\x7b\"layout\": \x7b\"tabs\": [\x7b\"id\": \"t1\", \"name\": \"Tab One\", \"widgets\": [\"w1\", \"w2\"]\x7d]\x7d, \"widgets\": \x7b\"w3\": \x7b\"type\": \"live\", \"visId\": \"list\"\x7d\x7d\x7d"

/-- The parse of `c5SpecText`. -/
def c5Spec : Json :=
  .obj [("layout",
         .obj [("tabs",
                .arr [.obj [("id", .str "t1"),
                            ("name", .str "Tab One"),
                            ("widgets", .arr [.str "w1", .str "w2"])]])]),
        ("widgets",
         .obj [("w3", .obj [("type", .str "live"),
                            ("visId", .str "list")])])]

/-- Environment of the C5 evaluation: `json.loads` parses exactly the
specification text, and the static visualization table maps the `list`
visId to its display name (the containment counts do not depend on this
table). -/
def c5Env : Env :=
  { jsonParse := fun s => if s = c5SpecText then some c5Spec else none,
    b64decode := fun _ => none,
    gunzip := fun _ => none,
    isoValid := fun _ => false,
    visIdToType := fun s => if s = "list" then "List" else "Unknown" }

/-- The dashboard node of the C5 scenario. -/
def c5Node : DashboardExtractor.DashboardNode :=
  { id := "dash1", name := "Dashboard",
    props := some { specification := some c5SpecText } }

/-- C5 — For a dashboard specification with one tab containing two
widget ids and one widget defined outside any tab, extraction yields
exactly one tab object, one contains-edge from the dashboard to the tab,
two contains-edges from the tab to the two widgets, and one
contains-edge from the dashboard directly to the unparented widget. -/
theorem dashboard_tab_widget_scenario_c5 :
    ((DashboardExtractor.extract c5Env c5Node).1.filter
        (fun o => o.object_type == ObjectType.tab)).length = 1
    ∧ ((DashboardExtractor.extract c5Env c5Node).2.1.filter
        (fun r => r.relationship_type == RelationshipType.contains
          && r.source_id == "dash1"
          && r.target_id == "dash1:tab:t1")).length = 1
    ∧ ((DashboardExtractor.extract c5Env c5Node).2.1.filter
        (fun r => r.relationship_type == RelationshipType.contains
          && r.source_id == "dash1:tab:t1")).map Relationship.target_id
      = ["dash1:widget:w1", "dash1:widget:w2"]
    ∧ ((DashboardExtractor.extract c5Env c5Node).2.1.filter
        (fun r => r.relationship_type == RelationshipType.contains
          && r.source_id == "dash1"
          && r.target_id == "dash1:widget:w3")).length = 1 := by
  refine ⟨by decide, by decide, by decide, by decide⟩

end BiParsers
